import Mathlib

/-!
Verification of the conversational orchestration core of this repository
(the streaming chat agents `CodeChangesChatAgent` and `CustomAgent`).

The two Python `run` generators are shallowly embedded as pure Lean
functions from an agent state and an environment of collaborator oracles
(rate limiter, provider, prompt service, history manager, classifier
chain, auxiliary tool agent, model stream) to a finite trace of actions.
The trace records, in program order, every externally visible step the
generator takes: limiter acquisition, provider instantiation, prompt and
history fetches, classifier and tool invocations, chunk receipt,
incremental history writes, event emission, and the final buffer flush.
Errors from collaborators are threaded as `Except` values exactly where
the source raises exceptions; the `try/except` at the boundary of `run`
becomes the wrapper that turns a failing body into a single terminal
textual error event.  Error description strings abstract the Python
`str(e)` renderings; raise sites that carry a literal message keep it.
-/

namespace Potpie

/-- Role of a chat message (`HumanMessage`, `SystemMessage`, AI output). -/
inductive Role
  | human
  | system
  | ai
deriving DecidableEq, Repr

/-- A typed chat message: role plus text content. -/
structure Message where
  role : Role
  content : String
deriving DecidableEq, Repr

/-- A primitive value appearing in raw session history: Python `str`,
`int` or `float`.  A float is carried together with its Python string
rendering, which is not otherwise modelled. -/
inductive Prim
  | pstr (s : String)
  | pint (n : Int)
  | pfloat (strForm : String)
deriving DecidableEq, Repr

/-- Python `str()` applied to a primitive history entry. -/
def Prim.pyStr : Prim → String
  | Prim.pstr s => s
  | Prim.pint n => toString n
  | Prim.pfloat r => r

/-- An entry of the raw session history returned by the History Manager:
either a primitive or an already-typed message. -/
inductive HistEntry
  | prim (p : Prim)
  | msg (m : Message)
deriving DecidableEq, Repr

/-- The per-entry coercion inside the `validated_history` list
comprehension: primitives become `HumanMessage(content=str(msg))`,
typed messages pass through unchanged. -/
def validateEntry : HistEntry → Message
  | HistEntry.prim p => { role := Role.human, content := p.pyStr }
  | HistEntry.msg m => m

/-- The `validated_history` list comprehension shared by both agents. -/
def validatedHistory (history : List HistEntry) : List Message :=
  history.map validateEntry

/-- Classifier verdict (`ClassificationResult` in the source). -/
inductive ClassificationResult
  | AGENT_REQUIRED
  | NO_AGENT_REQUIRED
deriving DecidableEq, Repr

/-- Message type tag passed to the History Manager; both agents only ever
use `AI_GENERATED`. -/
inductive MessageType
  | AI_GENERATED
deriving DecidableEq, Repr

/-- An opaque model handle produced by the provider service. -/
structure LLM where
  id : Nat
deriving DecidableEq, Repr

/-- A chunk of the model stream.  Python duck-types it: `chunk.content`
when the attribute exists, else `str(chunk)`; `content` models the
optional attribute and `strForm` the string fallback. -/
structure Chunk where
  content : Option String
  strForm : String
deriving DecidableEq, Repr

/-- The text extracted from a chunk:
`chunk.content if hasattr(chunk, "content") else str(chunk)`. -/
def Chunk.text (c : Chunk) : String :=
  c.content.getD c.strForm

/-- Prompt type requested from the Prompt Service. -/
inductive PromptType
  | SYSTEM
  | HUMAN
deriving DecidableEq, Repr

/-- One prompt row returned by the Prompt Service. -/
structure PromptResponse where
  ptype : PromptType
  text : String
deriving DecidableEq, Repr

/-- The dict comprehension `{prompt.type: prompt for prompt in prompts}`
followed by `.get(t)`: the last prompt of the requested type wins. -/
def promptDictGet (ps : List PromptResponse) (t : PromptType) : Option PromptResponse :=
  (ps.filter (fun p => p.ptype == t)).getLast?

/-- Structured result of the blast-radius tool (its `.pydantic` field). -/
structure BlastRadiusPydantic where
  citations : List String
  response : String
deriving DecidableEq, Repr

/-- Result of `kickoff_blast_radius_agent`: an optional structured part
plus the raw text fallback. -/
structure BlastRadiusResult where
  pydantic : Option BlastRadiusPydantic
  raw : String
deriving DecidableEq, Repr

/-- The citation list the source reads off a tool result:
`result.pydantic.citations` when the structured part exists, else `[]`. -/
def brCitations (br : BlastRadiusResult) : List String :=
  match br.pydantic with
  | some p => p.citations
  | none => []

/-- The `inputs` dict handed to `chain.astream`. -/
structure ChainInputs where
  history : List Message
  toolResults : List Message
  input : String
deriving DecidableEq, Repr

/-- The memoized chain of `CodeChangesChatAgent`: the two prompt texts
bound to the model handle. -/
structure Chain where
  systemText : String
  humanText : String
  llm : LLM
deriving DecidableEq, Repr

/-- Outcome of `asyncio.wait_for(limiter.acquire(), timeout)`: success,
`TimeoutError`, or some other exception raised by the limiter. -/
inductive AcquireOutcome
  | ok
  | timeout
  | failed (e : String)
deriving DecidableEq, Repr

/-- A streamed value yielded by `run`: either the JSON event
`json.dumps({"citations": …, "message": …})` built per chunk, or the
plain (non-JSON) terminal string `f"An error occurred: {e}"`. -/
inductive Event
  | chunk (citations : List String) (message : String)
  | error (desc : String)
deriving DecidableEq, Repr

/-- Whether an event is the terminal textual error form. -/
def Event.isError : Event → Bool
  | Event.chunk _ _ => false
  | Event.error _ => true

/-- One externally visible step of a run, in program order. -/
inductive Action
  | acquireLimiter
  | handleQuotaExceeded
  | instantiateLlm
  | fetchPrompts
  | fetchHistory
  | classify
  | invokeBlastRadius
  | invokeCustomAgent
  | receiveChunk (c : Chunk)
  | addMessageChunk (conversationId : String) (content : String)
      (msgType : MessageType) (citations : Option (List String))
  | flushMessageBuffer (conversationId : String) (msgType : MessageType)
  | emit (e : Event)
deriving DecidableEq, Repr

/-- Actions produced only by the chunk loop or the yield of `run`. -/
def Action.isStreamAction : Action → Bool
  | Action.receiveChunk _ => true
  | Action.addMessageChunk _ _ _ _ => true
  | Action.flushMessageBuffer _ _ => true
  | Action.emit _ => true
  | _ => false

/-- The event an action emits, if any. -/
def Action.eventOf : Action → Option Event
  | Action.emit e => some e
  | _ => none

/-- The fragment carried by an emitted chunk event, if any. -/
def Action.fragOf : Action → Option String
  | Action.emit (Event.chunk _ m) => some m
  | _ => none

/-- The content written by an incremental history append, if any. -/
def Action.persistOf : Action → Option String
  | Action.addMessageChunk _ s _ _ => some s
  | _ => none

/-- The chunk received from the model stream, if any. -/
def Action.recvOf : Action → Option Chunk
  | Action.receiveChunk c => some c
  | _ => none

/-- Whether an action writes to the History Manager (incremental append
or flush). -/
def Action.isHistoryWrite : Action → Bool
  | Action.addMessageChunk _ _ _ _ => true
  | Action.flushMessageBuffer _ _ => true
  | _ => false

/-- Whether an action is the classification step. -/
def Action.isClassify : Action → Bool
  | Action.classify => true
  | _ => false

/-- All events yielded along a trace, in order. -/
def traceEvents (t : List Action) : List Event :=
  t.filterMap Action.eventOf

/-- The message fragments of all emitted chunk events, in order. -/
def eventFrags (t : List Action) : List String :=
  t.filterMap Action.fragOf

/-- The contents persisted by incremental history appends, in order. -/
def persisted (t : List Action) : List String :=
  t.filterMap Action.persistOf

/-- The chunks received from the model stream, in order. -/
def received (t : List Action) : List Chunk :=
  t.filterMap Action.recvOf

/-- The history-write actions of a trace, in order. -/
def historyWrites (t : List Action) : List Action :=
  t.filter Action.isHistoryWrite

/-- A trace with no chunk-loop and no yield actions. -/
def noStream (t : List Action) : Bool :=
  t.all (fun a => !a.isStreamAction)

/-- Every emitted chunk event of the trace carries exactly the citation
list `c` (the terminal error string carries no citation field at all and
is skipped). -/
def allChunkCitations (t : List Action) (c : List String) : Bool :=
  (traceEvents t).all (fun ev =>
    match ev with
    | Event.chunk cs _ => cs == c
    | Event.error _ => true)

/-- Every event of the trace is a chunk event (no terminal error). -/
def noErrorEvents (t : List Action) : Bool :=
  (traceEvents t).all (fun ev => !ev.isError)

/-- Concatenation of a list of strings in order. -/
def concatAll (l : List String) : String :=
  l.foldl (fun a b => a ++ b) ""

/-- Whether `first` occurs at the start of `hay` (on character lists). -/
def charsStart : List Char → List Char → Bool
  | [], _ => true
  | _ :: _, [] => false
  | a :: as, b :: bs => a == b && charsStart as bs

/-- Whether `needle` occurs anywhere inside `hay` (on character lists). -/
def charsHave (needle : List Char) : List Char → Bool
  | [] => needle.isEmpty
  | c :: rest => charsStart needle (c :: rest) || charsHave needle rest

/-- Python `needle in hay` on strings. -/
def strHas (hay needle : String) : Bool :=
  charsHave needle.toList hay.toList

/-- The quota detector of `_get_llm`:
`"429" in str(e) or "quota exceeded" in str(e).lower()`. -/
def quotaIndicated (e : String) : Bool :=
  strHas e "429" || strHas e.toLower "quota exceeded"

/-- The message of the exception raised on rate-limiter timeout. -/
def overloadedMsg : String :=
  "Service is currently overloaded. Please try again later."

/-- The message of the `ValueError` raised when a required prompt is
missing. -/
def promptNotFoundMsg : String :=
  "Required prompts not found for CODE_CHANGES_AGENT"

/-- Description of the `AttributeError` raised when `_classify_query`
reads the never-assigned attribute `self.llm` (the Python rendering is
abstracted). -/
def llmAttributeError : String :=
  "AttributeError: CodeChangesChatAgent object has no attribute llm"

/-- The per-run collaborator oracles of `CodeChangesChatAgent`.  Each
fallible collaborator call is an `Except` outcome; the model stream is a
function of the assembled chain inputs, yielding its chunks and an
optional error raised after them. -/
structure Env where
  acquire : Nat → AcquireOutcome
  getSmallLlm : Except String LLM
  getPrompts : Except String (List PromptResponse)
  getSessionHistory : Except String (List HistEntry)
  classifyChain : Except String ClassificationResult
  blastRadius : Except String BlastRadiusResult
  formatCitations : List String → List String
  astream : ChainInputs → List Chunk
  streamErr : ChainInputs → Option String

/-- The mutable attributes of a `CodeChangesChatAgent` object.  `llm`
models the attribute `self.llm`: the constructor never assigns it, so a
freshly constructed object has `llm = none` and reading it raises. -/
structure AgentState where
  mini_llm : LLM
  llmCached : Option LLM
  llm : Option LLM
  chain : Option Chain
deriving DecidableEq, Repr

namespace CodeChangesChatAgent

/-- The constructor `__init__(mini_llm, llm, db)`: binds `self.mini_llm`, sets
`self._llm = None` and `self.chain = None`; the `llm` argument is
dropped and the attribute `self.llm` is never assigned. -/
def init (mini_llm _llmArg : LLM) : AgentState :=
  { mini_llm := mini_llm, llmCached := none, llm := none, chain := none }

/-- The getter `_get_llm`: awaits the rate limiter under a 30-unit timeout on every
call, then instantiates the provider model only when `self._llm` is still
`None`.  Timeout raises the overloaded exception; other failures run the
quota substring check before re-raising. -/
def getLlm (st : AgentState) (env : Env) :
    List Action × Except String LLM × AgentState :=
  match env.acquire 30 with
  | AcquireOutcome.timeout =>
      ([Action.acquireLimiter], Except.error overloadedMsg, st)
  | AcquireOutcome.failed e =>
      if quotaIndicated e then
        ([Action.acquireLimiter, Action.handleQuotaExceeded], Except.error e, st)
      else
        ([Action.acquireLimiter], Except.error e, st)
  | AcquireOutcome.ok =>
      match st.llmCached with
      | some l => ([Action.acquireLimiter], Except.ok l, st)
      | none =>
          match env.getSmallLlm with
          | Except.ok l =>
              ([Action.acquireLimiter, Action.instantiateLlm], Except.ok l,
                { st with llmCached := some l })
          | Except.error e =>
              if quotaIndicated e then
                ([Action.acquireLimiter, Action.instantiateLlm,
                    Action.handleQuotaExceeded], Except.error e, st)
              else
                ([Action.acquireLimiter, Action.instantiateLlm], Except.error e, st)

/-- The builder `_create_chain`: fetch prompts, fail with the prompt-not-found
`ValueError` when the SYSTEM or HUMAN entry is missing, then fetch the
model handle and bind the template to it. -/
def createChain (st : AgentState) (env : Env) :
    List Action × Except String Chain × AgentState :=
  match env.getPrompts with
  | Except.error e => ([Action.fetchPrompts], Except.error e, st)
  | Except.ok ps =>
      match promptDictGet ps PromptType.SYSTEM, promptDictGet ps PromptType.HUMAN with
      | some sp, some hp =>
          (match getLlm st env with
          | (t, Except.ok l, st2) =>
              (Action.fetchPrompts :: t,
                Except.ok { systemText := sp.text, humanText := hp.text, llm := l }, st2)
          | (t, Except.error e, st2) =>
              (Action.fetchPrompts :: t, Except.error e, st2))
      | _, _ => ([Action.fetchPrompts], Except.error promptNotFoundMsg, st)

/-- The classifier step `_classify_query`: reading `self.llm` raises when the attribute was
never assigned; otherwise the classifier chain is invoked and its
structured verdict (or parse failure) is the oracle outcome. -/
def classifyQuery (st : AgentState) (env : Env) :
    List Action × Except String ClassificationResult :=
  match st.llm with
  | none => ([], Except.error llmAttributeError)
  | some _ =>
      match env.classifyChain with
      | Except.ok c => ([Action.classify], Except.ok c)
      | Except.error e => ([Action.classify], Except.error e)

/-- The conditional tool step of `run`: under `AGENT_REQUIRED` the
blast-radius agent is invoked and its result normalized into the raw
citation list and the single system tool-result message. -/
def toolPhase (env : Env) (cls : ClassificationResult) :
    List Action × Except String (List String × List Message) :=
  if cls = ClassificationResult.AGENT_REQUIRED then
    match env.blastRadius with
    | Except.error e => ([Action.invokeBlastRadius], Except.error e)
    | Except.ok br =>
        match br.pydantic with
        | some p =>
            ([Action.invokeBlastRadius],
              Except.ok (p.citations,
                [{ role := Role.system,
                   content := "Blast Radius Agent result: " ++ p.response }]))
        | none =>
            ([Action.invokeBlastRadius],
              Except.ok ([],
                [{ role := Role.system,
                   content := "Blast Radius Agent result: " ++ br.raw }]))
  else ([], Except.ok ([], []))

/-- The data assembled by the pre-stream part of a successful `run`. -/
structure SetupOk where
  classification : ClassificationResult
  citations : List String
  toolResults : List Message
  validatedHist : List Message
deriving DecidableEq, Repr

/-- The `if not self.chain: self.chain = await self._create_chain()`
statement: reuse the memoized chain, or build and store it. -/
def chainPhase (st : AgentState) (env : Env) :
    List Action × Except String Chain × AgentState :=
  match st.chain with
  | some c => (([] : List Action), Except.ok c, st)
  | none =>
      match createChain st env with
      | (t, Except.ok c, st2) => (t, Except.ok c, { st2 with chain := some c })
      | (t, Except.error e, st2) => (t, Except.error e, st2)

/-- Steps 1-3 of `run` plus citation formatting: ensure the chain is
built (memoizing it), fetch and validate history, classify, conditionally
invoke the tool, and format the citation list. -/
def setupPhase (st : AgentState) (env : Env) :
    List Action × Except String SetupOk × AgentState :=
  match chainPhase st env with
  | (t1, Except.error e, st1) => (t1, Except.error e, st1)
  | (t1, Except.ok _, st1) =>
      match env.getSessionHistory with
      | Except.error e => (t1 ++ [Action.fetchHistory], Except.error e, st1)
      | Except.ok hist =>
          match classifyQuery st1 env with
          | (t2, Except.error e) =>
              (t1 ++ [Action.fetchHistory] ++ t2, Except.error e, st1)
          | (t2, Except.ok cls) =>
              match toolPhase env cls with
              | (t3, Except.error e) =>
                  (t1 ++ [Action.fetchHistory] ++ t2 ++ t3, Except.error e, st1)
              | (t3, Except.ok (cits, toolResults)) =>
                  (t1 ++ [Action.fetchHistory] ++ t2 ++ t3,
                    Except.ok
                      { classification := cls,
                        citations := env.formatCitations cits,
                        toolResults := toolResults,
                        validatedHist := validatedHistory hist }, st1)

end CodeChangesChatAgent

/-- The body of one chunk iteration: receive the chunk, persist its text
via the incremental append (with the citation tag of the current
classification branch), then yield the JSON event. -/
def chunkStep (conv : String) (evCits : List String)
    (pCits : Option (List String)) (c : Chunk) : List Action :=
  [Action.receiveChunk c,
   Action.addMessageChunk conv c.text MessageType.AI_GENERATED pCits,
   Action.emit (Event.chunk evCits c.text)]

/-- The `async for chunk in chain.astream(inputs)` loop as a trace. -/
def streamTrace (conv : String) (evCits : List String)
    (pCits : Option (List String)) : List Chunk → List Action
  | [] => []
  | c :: cs => chunkStep conv evCits pCits c ++ streamTrace conv evCits pCits cs

/-- The `full_response` accumulator after the loop:
`full_response += content` per chunk, starting from the empty string. -/
def fullResponseOf (cs : List Chunk) : String :=
  cs.foldl (fun acc c => acc ++ c.text) ""

/-- What one execution of the `try` body of `run` produces: its trace,
the accumulator value, whether it raised, and the mutated agent state. -/
structure BodyResult (σ : Type) where
  trace : List Action
  fullResponse : String
  outcome : Except String Unit
  finalState : σ
deriving Repr

/-- The observable result of a whole `run` call. -/
structure RunResult where
  trace : List Action
  fullResponse : String
deriving Repr

/-- The arguments of a `run` call. -/
structure RunInputs where
  query : String
  projectId : String
  userId : String
  conversationId : String
  nodeIds : List String
deriving DecidableEq, Repr

namespace CodeChangesChatAgent

/-- The `try` body of `run`: setup, then the stream loop (each chunk
persisted and yielded with citations gated on the classification), then
the buffer flush.  A stream error raises after the already-delivered
chunks. -/
def runBody (st : AgentState) (env : Env) (inp : RunInputs) :
    BodyResult AgentState :=
  match setupPhase st env with
  | (t, Except.error e, st1) =>
      { trace := t, fullResponse := "", outcome := Except.error e, finalState := st1 }
  | (t, Except.ok s, st1) =>
      let ins : ChainInputs :=
        { history := s.validatedHist, toolResults := s.toolResults, input := inp.query }
      let cs := env.astream ins
      let evCits :=
        if s.classification = ClassificationResult.AGENT_REQUIRED then s.citations else []
      let pCits :=
        if s.classification = ClassificationResult.AGENT_REQUIRED then some s.citations
        else none
      let t2 := t ++ streamTrace inp.conversationId evCits pCits cs
      match env.streamErr ins with
      | some e =>
          { trace := t2, fullResponse := fullResponseOf cs,
            outcome := Except.error e, finalState := st1 }
      | none =>
          { trace := t2 ++ [Action.flushMessageBuffer inp.conversationId
                MessageType.AI_GENERATED],
            fullResponse := fullResponseOf cs,
            outcome := Except.ok (), finalState := st1 }

/-- The generator `run`: the body wrapped in the boundary `try/except` that converts
any raised error into the single terminal textual event
`f"An error occurred: {e}"` and ends the sequence. -/
def run (st : AgentState) (env : Env) (inp : RunInputs) : RunResult × AgentState :=
  match runBody st env inp with
  | { trace := t, fullResponse := full, outcome := Except.ok _, finalState := st1 } =>
      ({ trace := t, fullResponse := full }, st1)
  | { trace := t, fullResponse := full, outcome := Except.error e, finalState := st1 } =>
      ({ trace := t ++ [Action.emit (Event.error ("An error occurred: " ++ e))],
         fullResponse := full }, st1)

end CodeChangesChatAgent

/-- The memoized chain of `CustomAgent`: system prompt text bound to the
model handle (no human template). -/
structure CustomChain where
  systemText : String
  llm : LLM
deriving DecidableEq, Repr

/-- The per-run collaborator oracles of `CustomAgent`.  `getSystemPrompt`
stands for `_get_system_prompt`, whose body lives outside this
repository snapshot: it yields the optional prompt text (`none` models a
missing prompt).  `runAgent` yields the auxiliary agent result already in
its `json.dumps` string form. -/
structure CustomEnv where
  getSystemPrompt : Except String (Option String)
  getSmallLlm : Except String LLM
  getSessionHistory : Except String (List HistEntry)
  runAgent : Except String String
  astream : ChainInputs → List Chunk
  streamErr : ChainInputs → Option String

/-- The mutable attributes of a `CustomAgent` object. -/
structure CustomState where
  llmCached : Option LLM
  chain : Option CustomChain
  agentId : String
  userId : String
deriving DecidableEq, Repr

namespace CustomAgent

/-- The constructor `__init__(llm_provider, db, agent_id, user_id)`: sets
`self._llm = None` and `self.chain = None`. -/
def init (agentId userId : String) : CustomState :=
  { llmCached := none, chain := none, agentId := agentId, userId := userId }

/-- The getter `_get_llm`: pure memoization, no rate limiter involved. -/
def getLlm (st : CustomState) (env : CustomEnv) :
    List Action × Except String LLM × CustomState :=
  match st.llmCached with
  | some l => ([], Except.ok l, st)
  | none =>
      match env.getSmallLlm with
      | Except.ok l =>
          ([Action.instantiateLlm], Except.ok l, { st with llmCached := some l })
      | Except.error e => ([Action.instantiateLlm], Except.error e, st)

/-- The builder `_create_chain`: fetch the system prompt (a missing or empty text is
falsy and raises the `ValueError`), then bind the template to the model
handle. -/
def createChain (st : CustomState) (env : CustomEnv) :
    List Action × Except String CustomChain × CustomState :=
  match env.getSystemPrompt with
  | Except.error e => ([Action.fetchPrompts], Except.error e, st)
  | Except.ok none =>
      ([Action.fetchPrompts],
        Except.error ("System prompt not found for agent " ++ st.agentId), st)
  | Except.ok (some s) =>
      if s = "" then
        ([Action.fetchPrompts],
          Except.error ("System prompt not found for agent " ++ st.agentId), st)
      else
        match getLlm st env with
        | (t, Except.ok l, st2) =>
            (Action.fetchPrompts :: t,
              Except.ok { systemText := s, llm := l }, st2)
        | (t, Except.error e, st2) =>
            (Action.fetchPrompts :: t, Except.error e, st2)

/-- The data assembled by the pre-stream part of a `CustomAgent.run`. -/
structure CustomSetupOk where
  toolResults : List Message
  validatedHist : List Message
deriving DecidableEq, Repr

/-- The chain memoization statement of `CustomAgent.run`. -/
def chainPhase (st : CustomState) (env : CustomEnv) :
    List Action × Except String CustomChain × CustomState :=
  match st.chain with
  | some c => (([] : List Action), Except.ok c, st)
  | none =>
      match createChain st env with
      | (t, Except.ok c, st2) => (t, Except.ok c, { st2 with chain := some c })
      | (t, Except.error e, st2) => (t, Except.error e, st2)

/-- The pre-stream part of `CustomAgent.run`: ensure the chain is built,
fetch and validate history, then invoke the auxiliary agent
unconditionally (there is no classification step). -/
def setupPhase (st : CustomState) (env : CustomEnv) :
    List Action × Except String CustomSetupOk × CustomState :=
  match chainPhase st env with
  | (t1, Except.error e, st1) => (t1, Except.error e, st1)
  | (t1, Except.ok _, st1) =>
      match env.getSessionHistory with
      | Except.error e => (t1 ++ [Action.fetchHistory], Except.error e, st1)
      | Except.ok hist =>
          match env.runAgent with
          | Except.error e =>
              (t1 ++ [Action.fetchHistory, Action.invokeCustomAgent],
                Except.error e, st1)
          | Except.ok dump =>
              (t1 ++ [Action.fetchHistory, Action.invokeCustomAgent],
                Except.ok
                  { toolResults :=
                      [{ role := Role.system,
                         content := "Custom Agent result: " ++ dump }],
                    validatedHist := validatedHistory hist }, st1)

/-- The `try` body of `CustomAgent.run`: setup, then the stream loop — each
chunk persisted without a citation tag and yielded with an empty citation
list — then the buffer flush. -/
def runBody (st : CustomState) (env : CustomEnv) (inp : RunInputs) :
    BodyResult CustomState :=
  match setupPhase st env with
  | (t, Except.error e, st1) =>
      { trace := t, fullResponse := "", outcome := Except.error e, finalState := st1 }
  | (t, Except.ok s, st1) =>
      let ins : ChainInputs :=
        { history := s.validatedHist, toolResults := s.toolResults, input := inp.query }
      let cs := env.astream ins
      let t2 := t ++ streamTrace inp.conversationId [] none cs
      match env.streamErr ins with
      | some e =>
          { trace := t2, fullResponse := fullResponseOf cs,
            outcome := Except.error e, finalState := st1 }
      | none =>
          { trace := t2 ++ [Action.flushMessageBuffer inp.conversationId
                MessageType.AI_GENERATED],
            fullResponse := fullResponseOf cs,
            outcome := Except.ok (), finalState := st1 }

/-- The generator `CustomAgent.run`: the body wrapped in the boundary `try/except`. -/
def run (st : CustomState) (env : CustomEnv) (inp : RunInputs) :
    RunResult × CustomState :=
  match runBody st env inp with
  | { trace := t, fullResponse := full, outcome := Except.ok _, finalState := st1 } =>
      ({ trace := t, fullResponse := full }, st1)
  | { trace := t, fullResponse := full, outcome := Except.error e, finalState := st1 } =>
      ({ trace := t ++ [Action.emit (Event.error ("An error occurred: " ++ e))],
         fullResponse := full }, st1)

end CustomAgent

/-- The write-before-yield invariant of a trace: after any prefix of the
execution, the fragments yielded so far are an initial segment of the
contents persisted so far, so no yielded fragment is unpersisted. -/
def writeBeforeYield (t : List Action) : Prop :=
  ∀ n : Nat, ∃ r, persisted (t.take n) = eventFrags (t.take n) ++ r

/-- A concrete model handle used by the concrete evaluations below. -/
def llmA : LLM := { id := 1 }

/-- A concrete built chain. -/
def sampleChain : Chain := { systemText := "sys", humanText := "hum", llm := llmA }

/-- A concrete built custom chain. -/
def sampleCustomChain : CustomChain := { systemText := "sys", llm := llmA }

/-- A chunk exposing a `content` attribute. -/
def sampleChunk1 : Chunk := { content := some "3 call ", strForm := "x" }

/-- A chunk with no `content` attribute, read through `str(chunk)`. -/
def sampleChunk2 : Chunk := { content := none, strForm := "sites affected" }

/-- Concrete run arguments. -/
def sampleInputs : RunInputs :=
  { query := "what breaks if I change function foo?", projectId := "p",
    userId := "u", conversationId := "c", nodeIds := [] }

/-- A `CodeChangesChatAgent` state whose chain is already built and whose
`llm` attribute has been given a value, so a run can reach streaming. -/
def stReady : AgentState :=
  { mini_llm := { id := 0 }, llmCached := some llmA, llm := some llmA,
    chain := some sampleChain }

/-- A fully cooperative environment: limiter available, both prompts
present, empty history, classifier answers `NO_AGENT_REQUIRED`, tool
available, identity citation formatting, a two-chunk stream. -/
def baseEnv : Env :=
  { acquire := fun _ => AcquireOutcome.ok
  , getSmallLlm := Except.ok llmA
  , getPrompts := Except.ok
      [{ ptype := PromptType.SYSTEM, text := "s" },
       { ptype := PromptType.HUMAN, text := "h" }]
  , getSessionHistory := Except.ok []
  , classifyChain := Except.ok ClassificationResult.NO_AGENT_REQUIRED
  , blastRadius := Except.ok
      { pydantic := some { citations := ["fileA.py:10"],
                           response := "3 call sites affected" },
        raw := "" }
  , formatCitations := fun l => l
  , astream := fun _ => [sampleChunk1, sampleChunk2]
  , streamErr := fun _ => none }

/-- A variant of `baseEnv` with the classifier answering `AGENT_REQUIRED`. -/
def agentEnv : Env :=
  { baseEnv with classifyChain := Except.ok ClassificationResult.AGENT_REQUIRED }

/-- A variant of `baseEnv` with a failing history fetch. -/
def historyFailEnv : Env :=
  { baseEnv with getSessionHistory := Except.error "db down" }

/-- A variant of `baseEnv` with the HUMAN prompt missing. -/
def noHumanPromptEnv : Env :=
  { baseEnv with getPrompts := Except.ok [{ ptype := PromptType.SYSTEM, text := "s" }] }

/-- A variant of `baseEnv` with the rate limiter timing out. -/
def timeoutEnv : Env :=
  { baseEnv with acquire := fun _ => AcquireOutcome.timeout }

/-- A fully cooperative `CustomAgent` environment. -/
def custEnv : CustomEnv :=
  { getSystemPrompt := Except.ok (some "s")
  , getSmallLlm := Except.ok llmA
  , getSessionHistory := Except.ok []
  , runAgent := Except.ok "result"
  , astream := fun _ => [sampleChunk1, sampleChunk2]
  , streamErr := fun _ => none }

/-- A variant of `custEnv` with a failing history fetch. -/
def custHistoryFailEnv : CustomEnv :=
  { custEnv with getSessionHistory := Except.error "db down" }

/-- A `CustomAgent` state whose chain is already built. -/
def custReady : CustomState :=
  { llmCached := some llmA, chain := some sampleCustomChain,
    agentId := "a", userId := "u" }

theorem filterMap_nil_of_none {α β : Type} (f : α → Option β) :
    ∀ t : List α, (∀ a ∈ t, f a = none) → t.filterMap f = [] := by
  intro t h
  induction t with
  | nil => rfl
  | cons a t ih =>
      rw [List.filterMap_cons, h a (by simp)]
      exact ih (fun x hx => h x (by simp [hx]))

theorem noStream_mem {t : List Action} (h : noStream t = true) :
    ∀ a ∈ t, a.isStreamAction = false := by
  intro a ha
  have := List.all_eq_true.mp h a ha
  simpa using this

theorem eventOf_none {a : Action} (h : a.isStreamAction = false) :
    a.eventOf = none := by
  cases a <;> simp_all [Action.isStreamAction, Action.eventOf]

theorem fragOf_none {a : Action} (h : a.isStreamAction = false) :
    a.fragOf = none := by
  cases a <;> simp_all [Action.isStreamAction, Action.fragOf]

theorem persistOf_none {a : Action} (h : a.isStreamAction = false) :
    a.persistOf = none := by
  cases a <;> simp_all [Action.isStreamAction, Action.persistOf]

theorem recvOf_none {a : Action} (h : a.isStreamAction = false) :
    a.recvOf = none := by
  cases a <;> simp_all [Action.isStreamAction, Action.recvOf]

theorem isHistoryWrite_false {a : Action} (h : a.isStreamAction = false) :
    a.isHistoryWrite = false := by
  cases a <;> simp_all [Action.isStreamAction, Action.isHistoryWrite]

theorem noStream_events {t : List Action} (h : noStream t = true) :
    traceEvents t = [] :=
  filterMap_nil_of_none _ t (fun a ha => eventOf_none (noStream_mem h a ha))

theorem noStream_frags {t : List Action} (h : noStream t = true) :
    eventFrags t = [] :=
  filterMap_nil_of_none _ t (fun a ha => fragOf_none (noStream_mem h a ha))

theorem noStream_persisted {t : List Action} (h : noStream t = true) :
    persisted t = [] :=
  filterMap_nil_of_none _ t (fun a ha => persistOf_none (noStream_mem h a ha))

theorem noStream_received {t : List Action} (h : noStream t = true) :
    received t = [] :=
  filterMap_nil_of_none _ t (fun a ha => recvOf_none (noStream_mem h a ha))

theorem noStream_writes {t : List Action} (h : noStream t = true) :
    historyWrites t = [] := by
  unfold historyWrites
  induction t with
  | nil => rfl
  | cons a t ih =>
      have ha : a.isStreamAction = false := noStream_mem h a (by simp)
      have ht : noStream t = true := by
        simp only [noStream, List.all_eq_true] at h ⊢
        exact fun x hx => h x (by simp [hx])
      rw [List.filter_cons, isHistoryWrite_false ha]
      simpa using ih ht

theorem streamTrace_events (conv : String) (ec : List String)
    (pc : Option (List String)) (cs : List Chunk) :
    traceEvents (streamTrace conv ec pc cs)
      = cs.map (fun c => Event.chunk ec c.text) := by
  induction cs with
  | nil => rfl
  | cons c cs ih =>
      simp only [streamTrace, traceEvents, List.filterMap_append] at ih ⊢
      rw [ih]
      rfl

theorem streamTrace_frags (conv : String) (ec : List String)
    (pc : Option (List String)) (cs : List Chunk) :
    eventFrags (streamTrace conv ec pc cs) = cs.map Chunk.text := by
  induction cs with
  | nil => rfl
  | cons c cs ih =>
      simp only [streamTrace, eventFrags, List.filterMap_append] at ih ⊢
      rw [ih]
      rfl

theorem streamTrace_persisted (conv : String) (ec : List String)
    (pc : Option (List String)) (cs : List Chunk) :
    persisted (streamTrace conv ec pc cs) = cs.map Chunk.text := by
  induction cs with
  | nil => rfl
  | cons c cs ih =>
      simp only [streamTrace, persisted, List.filterMap_append] at ih ⊢
      rw [ih]
      rfl

theorem streamTrace_received (conv : String) (ec : List String)
    (pc : Option (List String)) (cs : List Chunk) :
    received (streamTrace conv ec pc cs) = cs := by
  induction cs with
  | nil => rfl
  | cons c cs ih =>
      simp only [streamTrace, received, List.filterMap_append] at ih ⊢
      rw [ih]
      rfl

theorem streamTrace_writes (conv : String) (ec : List String)
    (pc : Option (List String)) (cs : List Chunk) :
    historyWrites (streamTrace conv ec pc cs)
      = cs.map (fun c =>
          Action.addMessageChunk conv c.text MessageType.AI_GENERATED pc) := by
  induction cs with
  | nil => rfl
  | cons c cs ih =>
      simp only [streamTrace, historyWrites, List.filter_append] at ih ⊢
      rw [ih]
      rfl

theorem concatAll_map_text (cs : List Chunk) :
    concatAll (cs.map Chunk.text) = fullResponseOf cs := by
  unfold concatAll fullResponseOf
  rw [List.foldl_map]

theorem traceEvents_append (a b : List Action) :
    traceEvents (a ++ b) = traceEvents a ++ traceEvents b :=
  List.filterMap_append a b _

theorem eventFrags_append (a b : List Action) :
    eventFrags (a ++ b) = eventFrags a ++ eventFrags b :=
  List.filterMap_append a b _

theorem persisted_append (a b : List Action) :
    persisted (a ++ b) = persisted a ++ persisted b :=
  List.filterMap_append a b _

theorem received_append (a b : List Action) :
    received (a ++ b) = received a ++ received b :=
  List.filterMap_append a b _

theorem historyWrites_append (a b : List Action) :
    historyWrites (a ++ b) = historyWrites a ++ historyWrites b :=
  List.filter_append a b

theorem persisted_nil_of_neutral {t : List Action}
    (h : ∀ a ∈ t, a.persistOf = none) : persisted t = [] :=
  filterMap_nil_of_none _ t h

theorem eventFrags_nil_of_neutral {t : List Action}
    (h : ∀ a ∈ t, a.fragOf = none) : eventFrags t = [] :=
  filterMap_nil_of_none _ t h

theorem wBY_nil : writeBeforeYield [] := by
  intro n
  refine ⟨[], ?_⟩
  rw [List.take_nil]
  rfl

theorem wBY_cons_neutral {a : Action} {t : List Action}
    (hf : a.fragOf = none) (hp : a.persistOf = none)
    (h : writeBeforeYield t) : writeBeforeYield (a :: t) := by
  intro n
  cases n with
  | zero => exact ⟨[], rfl⟩
  | succ n =>
      rcases h n with ⟨r, hr⟩
      refine ⟨r, ?_⟩
      rw [List.take_succ_cons]
      simp only [persisted, eventFrags, List.filterMap_cons, hf, hp]
      exact hr

theorem wBY_append_neutral_left {t0 t : List Action}
    (h0 : ∀ a ∈ t0, a.fragOf = none ∧ a.persistOf = none)
    (h : writeBeforeYield t) : writeBeforeYield (t0 ++ t) := by
  induction t0 with
  | nil => simpa using h
  | cons a t0 ih =>
      have ha := h0 a (by simp)
      exact wBY_cons_neutral ha.1 ha.2 (ih (fun x hx => h0 x (by simp [hx])))

theorem wBY_append_neutral_right {t t2 : List Action}
    (h : writeBeforeYield t)
    (h2 : ∀ a ∈ t2, a.fragOf = none ∧ a.persistOf = none) :
    writeBeforeYield (t ++ t2) := by
  intro n
  rcases h n with ⟨r, hr⟩
  refine ⟨r, ?_⟩
  rw [List.take_append_eq_append_take, persisted_append, eventFrags_append,
    persisted_nil_of_neutral
      (fun a ha => (h2 a (List.take_subset _ _ ha)).2),
    eventFrags_nil_of_neutral
      (fun a ha => (h2 a (List.take_subset _ _ ha)).1),
    List.append_nil, List.append_nil]
  exact hr

theorem noStream_neutral {t : List Action} (h : noStream t = true) :
    ∀ a ∈ t, a.fragOf = none ∧ a.persistOf = none :=
  fun a ha => ⟨fragOf_none (noStream_mem h a ha),
               persistOf_none (noStream_mem h a ha)⟩

theorem wBY_stream (conv : String) (ec : List String)
    (pc : Option (List String)) (cs : List Chunk) :
    writeBeforeYield (streamTrace conv ec pc cs) := by
  induction cs with
  | nil => exact wBY_nil
  | cons c cs ih =>
      intro n
      simp only [streamTrace, chunkStep, List.cons_append, List.nil_append]
      rcases n with _ | _ | _ | n
      · exact ⟨[], rfl⟩
      · exact ⟨[], rfl⟩
      · exact ⟨[Chunk.text c], rfl⟩
      · rcases ih n with ⟨r, hr⟩
        refine ⟨r, ?_⟩
        rw [List.take_succ_cons, List.take_succ_cons, List.take_succ_cons]
        simp only [persisted, eventFrags, List.filterMap_cons, Action.persistOf,
          Action.fragOf, List.cons_append] at hr ⊢
        rw [hr]

theorem noStream_cons {a : Action} {t : List Action}
    (ha : a.isStreamAction = false) (ht : noStream t = true) :
    noStream (a :: t) = true := by
  simp only [noStream, List.all_cons, ha, Bool.not_false, Bool.true_and]
  exact ht

theorem noStream_append {a b : List Action}
    (ha : noStream a = true) (hb : noStream b = true) :
    noStream (a ++ b) = true := by
  simp only [noStream, List.all_append, Bool.and_eq_true]
  exact ⟨ha, hb⟩

theorem getLlm_noStream (st : AgentState) (env : Env) :
    noStream (CodeChangesChatAgent.getLlm st env).1 = true := by
  unfold CodeChangesChatAgent.getLlm
  cases env.acquire 30 with
  | timeout => rfl
  | failed e =>
      cases hq : quotaIndicated e
      · simp only [hq, Bool.false_eq_true, if_false]
        rfl
      · simp only [hq, if_true]
        rfl
  | ok =>
      cases st.llmCached with
      | some l => rfl
      | none =>
          cases env.getSmallLlm with
          | ok l => rfl
          | error e =>
              cases hq : quotaIndicated e
              · simp only [hq, Bool.false_eq_true, if_false]
                rfl
              · simp only [hq, if_true]
                rfl

theorem createChain_noStream (st : AgentState) (env : Env) :
    noStream (CodeChangesChatAgent.createChain st env).1 = true := by
  rcases hps : env.getPrompts with e | ps
  · simp only [CodeChangesChatAgent.createChain, hps]
    rfl
  · rcases hs : promptDictGet ps PromptType.SYSTEM with _ | sp
    · simp only [CodeChangesChatAgent.createChain, hps, hs]
      rfl
    · rcases hh : promptDictGet ps PromptType.HUMAN with _ | hp
      · simp only [CodeChangesChatAgent.createChain, hps, hs, hh]
        rfl
      · have hg := getLlm_noStream st env
        rcases hgl : CodeChangesChatAgent.getLlm st env with ⟨t, r, st2⟩
        rw [hgl] at hg
        rcases r with l | e
        · simp only [CodeChangesChatAgent.createChain, hps, hs, hh, hgl]
          exact noStream_cons rfl hg
        · simp only [CodeChangesChatAgent.createChain, hps, hs, hh, hgl]
          exact noStream_cons rfl hg

theorem chainPhase_noStream (st : AgentState) (env : Env) :
    noStream (CodeChangesChatAgent.chainPhase st env).1 = true := by
  unfold CodeChangesChatAgent.chainPhase
  cases st.chain with
  | some c => rfl
  | none =>
      have hc := createChain_noStream st env
      rcases hcc : CodeChangesChatAgent.createChain st env with ⟨t, r, st2⟩
      rw [hcc] at hc
      cases r with
      | ok c => exact hc
      | error e => exact hc

theorem classifyQuery_noStream (st : AgentState) (env : Env) :
    noStream (CodeChangesChatAgent.classifyQuery st env).1 = true := by
  unfold CodeChangesChatAgent.classifyQuery
  cases st.llm with
  | none => rfl
  | some l => cases env.classifyChain <;> rfl

theorem toolPhase_noStream (env : Env) (cls : ClassificationResult) :
    noStream (CodeChangesChatAgent.toolPhase env cls).1 = true := by
  unfold CodeChangesChatAgent.toolPhase
  split
  · split
    · rfl
    · split <;> rfl
  · rfl

theorem setup_noStream (st : AgentState) (env : Env) :
    noStream (CodeChangesChatAgent.setupPhase st env).1 = true := by
  have hc := chainPhase_noStream st env
  rcases hcp : CodeChangesChatAgent.chainPhase st env with ⟨t1, r, st1⟩
  rw [hcp] at hc
  cases r with
  | error e =>
      simp only [CodeChangesChatAgent.setupPhase, hcp]
      exact hc
  | ok c =>
      have hc2 : noStream t1 = true := hc
      have hfh : noStream [Action.fetchHistory] = true := rfl
      rcases hh : env.getSessionHistory with e | hist
      · simp only [CodeChangesChatAgent.setupPhase, hcp, hh]
        exact noStream_append hc2 hfh
      · have hq := classifyQuery_noStream st1 env
        rcases hcq : CodeChangesChatAgent.classifyQuery st1 env with ⟨t2, r2⟩
        rw [hcq] at hq
        have hq2 : noStream t2 = true := hq
        cases r2 with
        | error e =>
            simp only [CodeChangesChatAgent.setupPhase, hcp, hh, hcq]
            exact noStream_append (noStream_append hc2 hfh) hq2
        | ok cls =>
            have htp := toolPhase_noStream env cls
            rcases htpp : CodeChangesChatAgent.toolPhase env cls with ⟨t3, r3⟩
            rw [htpp] at htp
            have htp2 : noStream t3 = true := htp
            cases r3 with
            | error e =>
                simp only [CodeChangesChatAgent.setupPhase, hcp, hh, hcq, htpp]
                exact noStream_append (noStream_append (noStream_append hc2 hfh) hq2) htp2
            | ok pair =>
                rcases pair with ⟨cits, toolResults⟩
                simp only [CodeChangesChatAgent.setupPhase, hcp, hh, hcq, htpp]
                exact noStream_append (noStream_append (noStream_append hc2 hfh) hq2) htp2

theorem custom_getLlm_noStream (st : CustomState) (env : CustomEnv) :
    noStream (CustomAgent.getLlm st env).1 = true := by
  unfold CustomAgent.getLlm
  cases st.llmCached with
  | some l => rfl
  | none => cases env.getSmallLlm <;> rfl

theorem custom_createChain_noStream (st : CustomState) (env : CustomEnv) :
    noStream (CustomAgent.createChain st env).1 = true := by
  rcases hsp : env.getSystemPrompt with e | osp
  · simp only [CustomAgent.createChain, hsp]
    rfl
  · rcases osp with _ | s
    · simp only [CustomAgent.createChain, hsp]
      rfl
    · by_cases hs : s = ""
      · simp only [CustomAgent.createChain, hsp, if_pos hs]
        rfl
      · have hg := custom_getLlm_noStream st env
        rcases hgl : CustomAgent.getLlm st env with ⟨t, r, st2⟩
        rw [hgl] at hg
        cases r with
        | ok l =>
            simp only [CustomAgent.createChain, hsp, if_neg hs, hgl]
            exact noStream_cons rfl hg
        | error e =>
            simp only [CustomAgent.createChain, hsp, if_neg hs, hgl]
            exact noStream_cons rfl hg

theorem custom_chainPhase_noStream (st : CustomState) (env : CustomEnv) :
    noStream (CustomAgent.chainPhase st env).1 = true := by
  unfold CustomAgent.chainPhase
  cases st.chain with
  | some c => rfl
  | none =>
      have hc := custom_createChain_noStream st env
      rcases hcc : CustomAgent.createChain st env with ⟨t, r, st2⟩
      rw [hcc] at hc
      cases r with
      | ok c => exact hc
      | error e => exact hc

theorem custom_setup_noStream (st : CustomState) (env : CustomEnv) :
    noStream (CustomAgent.setupPhase st env).1 = true := by
  have hc := custom_chainPhase_noStream st env
  rcases hcp : CustomAgent.chainPhase st env with ⟨t1, r, st1⟩
  rw [hcp] at hc
  cases r with
  | error e =>
      simp only [CustomAgent.setupPhase, hcp]
      exact hc
  | ok c =>
      have hc2 : noStream t1 = true := hc
      have hfh : noStream [Action.fetchHistory] = true := rfl
      have hfi : noStream [Action.fetchHistory, Action.invokeCustomAgent] = true := rfl
      rcases hh : env.getSessionHistory with e | hist
      · simp only [CustomAgent.setupPhase, hcp, hh]
        exact noStream_append hc2 hfh
      · rcases hra : env.runAgent with e | dump
        · simp only [CustomAgent.setupPhase, hcp, hh, hra]
          exact noStream_append hc2 hfi
        · simp only [CustomAgent.setupPhase, hcp, hh, hra]
          exact noStream_append hc2 hfi

theorem runBody_setup_error (st : AgentState) (env : Env) (inp : RunInputs)
    (t0 : List Action) (e : String) (st1 : AgentState)
    (h : CodeChangesChatAgent.setupPhase st env = (t0, Except.error e, st1)) :
    CodeChangesChatAgent.runBody st env inp =
      { trace := t0, fullResponse := "", outcome := Except.error e,
        finalState := st1 } := by
  simp only [CodeChangesChatAgent.runBody, h]

theorem runBody_ok_noerr (st : AgentState) (env : Env) (inp : RunInputs)
    (t0 : List Action) (s : CodeChangesChatAgent.SetupOk) (st1 : AgentState)
    (h : CodeChangesChatAgent.setupPhase st env = (t0, Except.ok s, st1))
    (hse : env.streamErr (⟨s.validatedHist, s.toolResults, inp.query⟩ : ChainInputs) = none) :
    CodeChangesChatAgent.runBody st env inp =
      { trace := t0 ++ streamTrace inp.conversationId
            (if s.classification = ClassificationResult.AGENT_REQUIRED
              then s.citations else [])
            (if s.classification = ClassificationResult.AGENT_REQUIRED
              then some s.citations else none)
            (env.astream (⟨s.validatedHist, s.toolResults, inp.query⟩ : ChainInputs))
          ++ [Action.flushMessageBuffer inp.conversationId MessageType.AI_GENERATED],
        fullResponse := fullResponseOf (env.astream (⟨s.validatedHist, s.toolResults, inp.query⟩ : ChainInputs)),
        outcome := Except.ok (), finalState := st1 } := by
  simp only [CodeChangesChatAgent.runBody, h, hse]

theorem runBody_ok_err (st : AgentState) (env : Env) (inp : RunInputs)
    (t0 : List Action) (s : CodeChangesChatAgent.SetupOk) (st1 : AgentState) (e : String)
    (h : CodeChangesChatAgent.setupPhase st env = (t0, Except.ok s, st1))
    (hse : env.streamErr (⟨s.validatedHist, s.toolResults, inp.query⟩ : ChainInputs) = some e) :
    CodeChangesChatAgent.runBody st env inp =
      { trace := t0 ++ streamTrace inp.conversationId
            (if s.classification = ClassificationResult.AGENT_REQUIRED
              then s.citations else [])
            (if s.classification = ClassificationResult.AGENT_REQUIRED
              then some s.citations else none)
            (env.astream (⟨s.validatedHist, s.toolResults, inp.query⟩ : ChainInputs)),
        fullResponse := fullResponseOf (env.astream (⟨s.validatedHist, s.toolResults, inp.query⟩ : ChainInputs)),
        outcome := Except.error e, finalState := st1 } := by
  simp only [CodeChangesChatAgent.runBody, h, hse]

theorem custom_runBody_setup_error (st : CustomState) (env : CustomEnv)
    (inp : RunInputs) (t0 : List Action) (e : String) (st1 : CustomState)
    (h : CustomAgent.setupPhase st env = (t0, Except.error e, st1)) :
    CustomAgent.runBody st env inp =
      { trace := t0, fullResponse := "", outcome := Except.error e,
        finalState := st1 } := by
  simp only [CustomAgent.runBody, h]

theorem custom_runBody_ok_noerr (st : CustomState) (env : CustomEnv)
    (inp : RunInputs) (t0 : List Action) (s : CustomAgent.CustomSetupOk)
    (st1 : CustomState)
    (h : CustomAgent.setupPhase st env = (t0, Except.ok s, st1))
    (hse : env.streamErr (⟨s.validatedHist, s.toolResults, inp.query⟩ : ChainInputs) = none) :
    CustomAgent.runBody st env inp =
      { trace := t0 ++ streamTrace inp.conversationId [] none
            (env.astream (⟨s.validatedHist, s.toolResults, inp.query⟩ : ChainInputs))
          ++ [Action.flushMessageBuffer inp.conversationId MessageType.AI_GENERATED],
        fullResponse := fullResponseOf (env.astream (⟨s.validatedHist, s.toolResults, inp.query⟩ : ChainInputs)),
        outcome := Except.ok (), finalState := st1 } := by
  simp only [CustomAgent.runBody, h, hse]

theorem custom_runBody_ok_err (st : CustomState) (env : CustomEnv)
    (inp : RunInputs) (t0 : List Action) (s : CustomAgent.CustomSetupOk)
    (st1 : CustomState) (e : String)
    (h : CustomAgent.setupPhase st env = (t0, Except.ok s, st1))
    (hse : env.streamErr (⟨s.validatedHist, s.toolResults, inp.query⟩ : ChainInputs) = some e) :
    CustomAgent.runBody st env inp =
      { trace := t0 ++ streamTrace inp.conversationId [] none
            (env.astream (⟨s.validatedHist, s.toolResults, inp.query⟩ : ChainInputs)),
        fullResponse := fullResponseOf (env.astream (⟨s.validatedHist, s.toolResults, inp.query⟩ : ChainInputs)),
        outcome := Except.error e, finalState := st1 } := by
  simp only [CustomAgent.runBody, h, hse]

theorem run_eq_of_ok (st : AgentState) (env : Env) (inp : RunInputs)
    (h : (CodeChangesChatAgent.runBody st env inp).outcome = Except.ok ()) :
    CodeChangesChatAgent.run st env inp =
      ({ trace := (CodeChangesChatAgent.runBody st env inp).trace,
         fullResponse := (CodeChangesChatAgent.runBody st env inp).fullResponse },
        (CodeChangesChatAgent.runBody st env inp).finalState) := by
  rcases hb : CodeChangesChatAgent.runBody st env inp with ⟨t, full, oc, st1⟩
  rw [hb] at h
  cases oc with
  | ok u => simp only [CodeChangesChatAgent.run, hb]
  | error e => exact absurd h (by simp)

theorem run_eq_of_error (st : AgentState) (env : Env) (inp : RunInputs) (e : String)
    (h : (CodeChangesChatAgent.runBody st env inp).outcome = Except.error e) :
    CodeChangesChatAgent.run st env inp =
      ({ trace := (CodeChangesChatAgent.runBody st env inp).trace
            ++ [Action.emit (Event.error ("An error occurred: " ++ e))],
         fullResponse := (CodeChangesChatAgent.runBody st env inp).fullResponse },
        (CodeChangesChatAgent.runBody st env inp).finalState) := by
  rcases hb : CodeChangesChatAgent.runBody st env inp with ⟨t, full, oc, st1⟩
  rw [hb] at h
  cases oc with
  | ok u => exact absurd h (by simp)
  | error e2 =>
      have he : e2 = e := by simpa using h
      subst he
      simp only [CodeChangesChatAgent.run, hb]

theorem custom_run_eq_of_ok (st : CustomState) (env : CustomEnv) (inp : RunInputs)
    (h : (CustomAgent.runBody st env inp).outcome = Except.ok ()) :
    CustomAgent.run st env inp =
      ({ trace := (CustomAgent.runBody st env inp).trace,
         fullResponse := (CustomAgent.runBody st env inp).fullResponse },
        (CustomAgent.runBody st env inp).finalState) := by
  rcases hb : CustomAgent.runBody st env inp with ⟨t, full, oc, st1⟩
  rw [hb] at h
  cases oc with
  | ok u => simp only [CustomAgent.run, hb]
  | error e => exact absurd h (by simp)

theorem custom_run_eq_of_error (st : CustomState) (env : CustomEnv)
    (inp : RunInputs) (e : String)
    (h : (CustomAgent.runBody st env inp).outcome = Except.error e) :
    CustomAgent.run st env inp =
      ({ trace := (CustomAgent.runBody st env inp).trace
            ++ [Action.emit (Event.error ("An error occurred: " ++ e))],
         fullResponse := (CustomAgent.runBody st env inp).fullResponse },
        (CustomAgent.runBody st env inp).finalState) := by
  rcases hb : CustomAgent.runBody st env inp with ⟨t, full, oc, st1⟩
  rw [hb] at h
  cases oc with
  | ok u => exact absurd h (by simp)
  | error e2 =>
      have he : e2 = e := by simpa using h
      subst he
      simp only [CustomAgent.run, hb]

theorem classifyQuery_ok_inv (st : AgentState) (env : Env) (t : List Action)
    (c : ClassificationResult)
    (h : CodeChangesChatAgent.classifyQuery st env = (t, Except.ok c)) :
    env.classifyChain = Except.ok c := by
  cases hl : st.llm with
  | none => simp [CodeChangesChatAgent.classifyQuery, hl] at h
  | some l =>
      cases hc : env.classifyChain with
      | ok c2 =>
          simp [CodeChangesChatAgent.classifyQuery, hl, hc] at h
          simp [h.2]
      | error e => simp [CodeChangesChatAgent.classifyQuery, hl, hc] at h

theorem toolPhase_ok_inv (env : Env) (cls : ClassificationResult)
    (t3 : List Action) (cits : List String) (tr : List Message)
    (h : CodeChangesChatAgent.toolPhase env cls = (t3, Except.ok (cits, tr))) :
    cls = ClassificationResult.AGENT_REQUIRED →
      ∃ br, env.blastRadius = Except.ok br ∧ cits = brCitations br := by
  intro hcls
  subst hcls
  cases hbr : env.blastRadius with
  | error e => simp [CodeChangesChatAgent.toolPhase, hbr] at h
  | ok br =>
      refine ⟨br, rfl, ?_⟩
      cases hp : br.pydantic with
      | some p =>
          simp [CodeChangesChatAgent.toolPhase, hbr, hp] at h
          simp [brCitations, hp, h.2.1]
      | none =>
          simp [CodeChangesChatAgent.toolPhase, hbr, hp] at h
          simp [brCitations, hp, h.2.1]

theorem setup_ok_inv (st : AgentState) (env : Env) (t0 : List Action)
    (s : CodeChangesChatAgent.SetupOk) (st1 : AgentState)
    (h : CodeChangesChatAgent.setupPhase st env = (t0, Except.ok s, st1)) :
    env.classifyChain = Except.ok s.classification ∧
      (s.classification = ClassificationResult.AGENT_REQUIRED →
        ∃ br, env.blastRadius = Except.ok br ∧
          s.citations = env.formatCitations (brCitations br)) := by
  rcases hcp : CodeChangesChatAgent.chainPhase st env with ⟨t1, r, st1x⟩
  cases r with
  | error e => simp [CodeChangesChatAgent.setupPhase, hcp] at h
  | ok c =>
      rcases hh : env.getSessionHistory with e | hist
      · simp [CodeChangesChatAgent.setupPhase, hcp, hh] at h
      · rcases hcq : CodeChangesChatAgent.classifyQuery st1x env with ⟨t2, r2⟩
        cases r2 with
        | error e => simp [CodeChangesChatAgent.setupPhase, hcp, hh, hcq] at h
        | ok cls =>
            rcases htpp : CodeChangesChatAgent.toolPhase env cls with ⟨t3, r3⟩
            cases r3 with
            | error e => simp [CodeChangesChatAgent.setupPhase, hcp, hh, hcq, htpp] at h
            | ok pair =>
                rcases pair with ⟨cits, tr⟩
                simp [CodeChangesChatAgent.setupPhase, hcp, hh, hcq, htpp] at h
                rcases h with ⟨h1, h2, h3⟩
                subst h2
                refine ⟨classifyQuery_ok_inv st1x env t2 cls hcq, ?_⟩
                intro hcls
                rcases toolPhase_ok_inv env cls t3 cits tr htpp hcls with ⟨br, hbr, hcits⟩
                exact ⟨br, hbr, by rw [hcits]⟩

theorem runBody_ok_inv (st : AgentState) (env : Env) (inp : RunInputs)
    (h : (CodeChangesChatAgent.runBody st env inp).outcome = Except.ok ()) :
    ∃ t0 s st1, CodeChangesChatAgent.setupPhase st env = (t0, Except.ok s, st1) ∧
      env.streamErr (⟨s.validatedHist, s.toolResults, inp.query⟩ : ChainInputs)
        = none := by
  rcases hs : CodeChangesChatAgent.setupPhase st env with ⟨t0, r, st1⟩
  cases r with
  | error e =>
      rw [runBody_setup_error st env inp t0 e st1 hs] at h
      simp at h
  | ok s =>
      rcases hse : env.streamErr
          (⟨s.validatedHist, s.toolResults, inp.query⟩ : ChainInputs) with _ | e
      · exact ⟨t0, s, st1, rfl, hse⟩
      · rw [runBody_ok_err st env inp t0 s st1 e hs hse] at h
        simp at h

theorem custom_runBody_ok_inv (st : CustomState) (env : CustomEnv) (inp : RunInputs)
    (h : (CustomAgent.runBody st env inp).outcome = Except.ok ()) :
    ∃ t0 s st1, CustomAgent.setupPhase st env = (t0, Except.ok s, st1) ∧
      env.streamErr (⟨s.validatedHist, s.toolResults, inp.query⟩ : ChainInputs)
        = none := by
  rcases hs : CustomAgent.setupPhase st env with ⟨t0, r, st1⟩
  cases r with
  | error e =>
      rw [custom_runBody_setup_error st env inp t0 e st1 hs] at h
      simp at h
  | ok s =>
      rcases hse : env.streamErr
          (⟨s.validatedHist, s.toolResults, inp.query⟩ : ChainInputs) with _ | e
      · exact ⟨t0, s, st1, rfl, hse⟩
      · rw [custom_runBody_ok_err st env inp t0 s st1 e hs hse] at h
        simp at h

theorem allChunk_append (a b : List Action) (c : List String) :
    allChunkCitations (a ++ b) c
      = (allChunkCitations a c && allChunkCitations b c) := by
  simp [allChunkCitations, traceEvents_append, List.all_append]

theorem allChunk_noStream {t : List Action} (c : List String)
    (h : noStream t = true) : allChunkCitations t c = true := by
  simp [allChunkCitations, noStream_events h]

theorem allChunk_stream (conv : String) (ec : List String)
    (pc : Option (List String)) (cs : List Chunk) :
    allChunkCitations (streamTrace conv ec pc cs) ec = true := by
  simp [allChunkCitations, streamTrace_events, List.all_eq_true]

theorem noErr_append (a b : List Action) :
    noErrorEvents (a ++ b) = (noErrorEvents a && noErrorEvents b) := by
  simp [noErrorEvents, traceEvents_append, List.all_append]

theorem noErr_noStream {t : List Action} (h : noStream t = true) :
    noErrorEvents t = true := by
  simp [noErrorEvents, noStream_events h]

theorem noErr_stream (conv : String) (ec : List String)
    (pc : Option (List String)) (cs : List Chunk) :
    noErrorEvents (streamTrace conv ec pc cs) = true := by
  simp [noErrorEvents, streamTrace_events, List.all_eq_true, Event.isError]

theorem body_noErrorEvents (st : AgentState) (env : Env) (inp : RunInputs) :
    noErrorEvents (CodeChangesChatAgent.runBody st env inp).trace = true := by
  rcases hs : CodeChangesChatAgent.setupPhase st env with ⟨t0, r, st1⟩
  have hns := setup_noStream st env
  rw [hs] at hns
  have hns2 : noStream t0 = true := hns
  cases r with
  | error e =>
      rw [runBody_setup_error st env inp t0 e st1 hs]
      exact noErr_noStream hns2
  | ok s =>
      rcases hse : env.streamErr
          (⟨s.validatedHist, s.toolResults, inp.query⟩ : ChainInputs) with _ | e
      · rw [runBody_ok_noerr st env inp t0 s st1 hs hse]
        rw [noErr_append, noErr_append, noErr_noStream hns2, noErr_stream]
        rfl
      · rw [runBody_ok_err st env inp t0 s st1 e hs hse]
        rw [noErr_append, noErr_noStream hns2, noErr_stream]
        rfl

theorem custom_body_noErrorEvents (st : CustomState) (env : CustomEnv)
    (inp : RunInputs) :
    noErrorEvents (CustomAgent.runBody st env inp).trace = true := by
  rcases hs : CustomAgent.setupPhase st env with ⟨t0, r, st1⟩
  have hns := custom_setup_noStream st env
  rw [hs] at hns
  have hns2 : noStream t0 = true := hns
  cases r with
  | error e =>
      rw [custom_runBody_setup_error st env inp t0 e st1 hs]
      exact noErr_noStream hns2
  | ok s =>
      rcases hse : env.streamErr
          (⟨s.validatedHist, s.toolResults, inp.query⟩ : ChainInputs) with _ | e
      · rw [custom_runBody_ok_noerr st env inp t0 s st1 hs hse]
        rw [noErr_append, noErr_append, noErr_noStream hns2, noErr_stream]
        rfl
      · rw [custom_runBody_ok_err st env inp t0 s st1 e hs hse]
        rw [noErr_append, noErr_noStream hns2, noErr_stream]
        rfl

theorem eventFrags_flush (conv : String) (mt : MessageType) :
    eventFrags [Action.flushMessageBuffer conv mt] = [] := rfl

theorem persisted_flush (conv : String) (mt : MessageType) :
    persisted [Action.flushMessageBuffer conv mt] = [] := rfl

theorem received_flush (conv : String) (mt : MessageType) :
    received [Action.flushMessageBuffer conv mt] = [] := rfl

theorem eventFrags_errorEvent (d : String) :
    eventFrags [Action.emit (Event.error d)] = [] := rfl

theorem persisted_errorEvent (d : String) :
    persisted [Action.emit (Event.error d)] = [] := rfl

theorem received_errorEvent (d : String) :
    received [Action.emit (Event.error d)] = [] := rfl

theorem traceEvents_single_emit (ev : Event) :
    traceEvents [Action.emit ev] = [ev] := rfl

theorem allChunk_errorEvent (d : String) (c : List String) :
    allChunkCitations [Action.emit (Event.error d)] c = true := rfl

theorem allChunk_flush (conv : String) (mt : MessageType) (c : List String) :
    allChunkCitations [Action.flushMessageBuffer conv mt] c = true := rfl

theorem neutral_singleton {a : Action} (hf : a.fragOf = none)
    (hp : a.persistOf = none) :
    ∀ x ∈ [a], x.fragOf = none ∧ x.persistOf = none := by
  intro x hx
  rcases List.mem_singleton.mp hx with rfl
  exact ⟨hf, hp⟩

theorem streamTrace_no_classify (conv : String) (ec : List String)
    (pc : Option (List String)) (cs : List Chunk) :
    (streamTrace conv ec pc cs).all (fun a => !a.isClassify) = true := by
  induction cs with
  | nil => rfl
  | cons c cs ih =>
      simp only [streamTrace, chunkStep, List.cons_append, List.nil_append,
        List.all_cons, ih, Bool.and_true]
      rfl

theorem run_trace_setup_error (st : AgentState) (env : Env) (inp : RunInputs)
    (t0 : List Action) (e : String) (st1 : AgentState)
    (hs : CodeChangesChatAgent.setupPhase st env = (t0, Except.error e, st1)) :
    (CodeChangesChatAgent.run st env inp).1.trace
      = t0 ++ [Action.emit (Event.error ("An error occurred: " ++ e))] := by
  have hb := runBody_setup_error st env inp t0 e st1 hs
  have hout : (CodeChangesChatAgent.runBody st env inp).outcome = Except.error e := by
    rw [hb]
  rw [run_eq_of_error st env inp e hout, hb]

theorem run_trace_ok_noerr (st : AgentState) (env : Env) (inp : RunInputs)
    (t0 : List Action) (s : CodeChangesChatAgent.SetupOk) (st1 : AgentState)
    (hs : CodeChangesChatAgent.setupPhase st env = (t0, Except.ok s, st1))
    (hse : env.streamErr (⟨s.validatedHist, s.toolResults, inp.query⟩ : ChainInputs)
      = none) :
    (CodeChangesChatAgent.run st env inp).1.trace
      = t0 ++ streamTrace inp.conversationId
          (if s.classification = ClassificationResult.AGENT_REQUIRED
            then s.citations else [])
          (if s.classification = ClassificationResult.AGENT_REQUIRED
            then some s.citations else none)
          (env.astream (⟨s.validatedHist, s.toolResults, inp.query⟩ : ChainInputs))
        ++ [Action.flushMessageBuffer inp.conversationId MessageType.AI_GENERATED]
    ∧ (CodeChangesChatAgent.run st env inp).1.fullResponse
      = fullResponseOf
          (env.astream (⟨s.validatedHist, s.toolResults, inp.query⟩ : ChainInputs)) := by
  have hb := runBody_ok_noerr st env inp t0 s st1 hs hse
  have hout : (CodeChangesChatAgent.runBody st env inp).outcome = Except.ok () := by
    rw [hb]
  rw [run_eq_of_ok st env inp hout, hb]
  exact ⟨rfl, rfl⟩

theorem run_trace_ok_err (st : AgentState) (env : Env) (inp : RunInputs)
    (t0 : List Action) (s : CodeChangesChatAgent.SetupOk) (st1 : AgentState)
    (e : String)
    (hs : CodeChangesChatAgent.setupPhase st env = (t0, Except.ok s, st1))
    (hse : env.streamErr (⟨s.validatedHist, s.toolResults, inp.query⟩ : ChainInputs)
      = some e) :
    (CodeChangesChatAgent.run st env inp).1.trace
      = (t0 ++ streamTrace inp.conversationId
          (if s.classification = ClassificationResult.AGENT_REQUIRED
            then s.citations else [])
          (if s.classification = ClassificationResult.AGENT_REQUIRED
            then some s.citations else none)
          (env.astream (⟨s.validatedHist, s.toolResults, inp.query⟩ : ChainInputs)))
        ++ [Action.emit (Event.error ("An error occurred: " ++ e))] := by
  have hb := runBody_ok_err st env inp t0 s st1 e hs hse
  have hout : (CodeChangesChatAgent.runBody st env inp).outcome = Except.error e := by
    rw [hb]
  rw [run_eq_of_error st env inp e hout, hb]

theorem custom_run_trace_setup_error (st : CustomState) (env : CustomEnv)
    (inp : RunInputs) (t0 : List Action) (e : String) (st1 : CustomState)
    (hs : CustomAgent.setupPhase st env = (t0, Except.error e, st1)) :
    (CustomAgent.run st env inp).1.trace
      = t0 ++ [Action.emit (Event.error ("An error occurred: " ++ e))] := by
  have hb := custom_runBody_setup_error st env inp t0 e st1 hs
  have hout : (CustomAgent.runBody st env inp).outcome = Except.error e := by
    rw [hb]
  rw [custom_run_eq_of_error st env inp e hout, hb]

theorem custom_run_trace_ok_noerr (st : CustomState) (env : CustomEnv)
    (inp : RunInputs) (t0 : List Action) (s : CustomAgent.CustomSetupOk)
    (st1 : CustomState)
    (hs : CustomAgent.setupPhase st env = (t0, Except.ok s, st1))
    (hse : env.streamErr (⟨s.validatedHist, s.toolResults, inp.query⟩ : ChainInputs)
      = none) :
    (CustomAgent.run st env inp).1.trace
      = t0 ++ streamTrace inp.conversationId [] none
          (env.astream (⟨s.validatedHist, s.toolResults, inp.query⟩ : ChainInputs))
        ++ [Action.flushMessageBuffer inp.conversationId MessageType.AI_GENERATED]
    ∧ (CustomAgent.run st env inp).1.fullResponse
      = fullResponseOf
          (env.astream (⟨s.validatedHist, s.toolResults, inp.query⟩ : ChainInputs)) := by
  have hb := custom_runBody_ok_noerr st env inp t0 s st1 hs hse
  have hout : (CustomAgent.runBody st env inp).outcome = Except.ok () := by
    rw [hb]
  rw [custom_run_eq_of_ok st env inp hout, hb]
  exact ⟨rfl, rfl⟩

theorem custom_run_trace_ok_err (st : CustomState) (env : CustomEnv)
    (inp : RunInputs) (t0 : List Action) (s : CustomAgent.CustomSetupOk)
    (st1 : CustomState) (e : String)
    (hs : CustomAgent.setupPhase st env = (t0, Except.ok s, st1))
    (hse : env.streamErr (⟨s.validatedHist, s.toolResults, inp.query⟩ : ChainInputs)
      = some e) :
    (CustomAgent.run st env inp).1.trace
      = (t0 ++ streamTrace inp.conversationId [] none
          (env.astream (⟨s.validatedHist, s.toolResults, inp.query⟩ : ChainInputs)))
        ++ [Action.emit (Event.error ("An error occurred: " ++ e))] := by
  have hb := custom_runBody_ok_err st env inp t0 s st1 e hs hse
  have hout : (CustomAgent.runBody st env inp).outcome = Except.error e := by
    rw [hb]
  rw [custom_run_eq_of_error st env inp e hout, hb]

/-- C8: validation of a raw history sequence maps each primitive entry to
a human-role message whose content is the Python string form of the primitive,
passes every already-typed message through unchanged, preserves order and
count (stated element-wise through index lookup), and is the identity on a
sequence consisting only of already-typed messages. -/
theorem claim8_history_validation (l : List HistEntry) (ms : List Message)
    (p : Prim) (s : String) (n : Int) (i : Nat) :
    (validatedHistory l).length = l.length
    ∧ validatedHistory (ms.map HistEntry.msg) = ms
    ∧ (validatedHistory l)[i]? = Option.map
        (fun e => match e with
          | HistEntry.prim q => { role := Role.human, content := q.pyStr }
          | HistEntry.msg m0 => m0) l[i]?
    ∧ validateEntry (HistEntry.prim p) = { role := Role.human, content := p.pyStr }
    ∧ Prim.pyStr (Prim.pstr s) = s
    ∧ Prim.pyStr (Prim.pint n) = toString n := by
  refine ⟨List.length_map l _, ?_, ?_, rfl, rfl, rfl⟩
  · rw [validatedHistory, List.map_map]
    have : (validateEntry ∘ HistEntry.msg) = id := by
      funext m
      rfl
    rw [this, List.map_id]
  · rw [validatedHistory, List.getElem?_map]
    rfl

/-- C1: for every run of either agent that completes without error, the
accumulated full response equals the concatenation, in arrival order, of
the message fragments of all emitted events, and likewise equals the
concatenation of the incrementally persisted fragments that the final
flush commits as the single AI turn. -/
theorem claim1_concat_invariant
    (st : AgentState) (env : Env) (inp : RunInputs)
    (cst : CustomState) (cenv : CustomEnv) (cinp : RunInputs)
    (h1 : (CodeChangesChatAgent.runBody st env inp).outcome = Except.ok ())
    (h2 : (CustomAgent.runBody cst cenv cinp).outcome = Except.ok ()) :
    (concatAll (eventFrags (CodeChangesChatAgent.run st env inp).1.trace)
        = (CodeChangesChatAgent.run st env inp).1.fullResponse
      ∧ concatAll (persisted (CodeChangesChatAgent.run st env inp).1.trace)
        = (CodeChangesChatAgent.run st env inp).1.fullResponse)
    ∧ (concatAll (eventFrags (CustomAgent.run cst cenv cinp).1.trace)
        = (CustomAgent.run cst cenv cinp).1.fullResponse
      ∧ concatAll (persisted (CustomAgent.run cst cenv cinp).1.trace)
        = (CustomAgent.run cst cenv cinp).1.fullResponse) := by
  constructor
  · obtain ⟨t0, s, st1, hs, hse⟩ := runBody_ok_inv st env inp h1
    have hns : noStream t0 = true := by
      have h0 := setup_noStream st env
      rw [hs] at h0
      exact h0
    obtain ⟨htr, hfull⟩ := run_trace_ok_noerr st env inp t0 s st1 hs hse
    rw [htr, hfull]
    constructor
    · simp only [eventFrags_append, eventFrags_flush, noStream_frags hns,
        streamTrace_frags, List.append_nil, List.nil_append]
      exact concatAll_map_text _
    · simp only [persisted_append, persisted_flush, noStream_persisted hns,
        streamTrace_persisted, List.append_nil, List.nil_append]
      exact concatAll_map_text _
  · obtain ⟨t0, s, st1, hs, hse⟩ := custom_runBody_ok_inv cst cenv cinp h2
    have hns : noStream t0 = true := by
      have h0 := custom_setup_noStream cst cenv
      rw [hs] at h0
      exact h0
    obtain ⟨htr, hfull⟩ := custom_run_trace_ok_noerr cst cenv cinp t0 s st1 hs hse
    rw [htr, hfull]
    constructor
    · simp only [eventFrags_append, eventFrags_flush, noStream_frags hns,
        streamTrace_frags, List.append_nil, List.nil_append]
      exact concatAll_map_text _
    · simp only [persisted_append, persisted_flush, noStream_persisted hns,
        streamTrace_persisted, List.append_nil, List.nil_append]
      exact concatAll_map_text _

/-- Witness for C1: both agents complete a two-chunk run without error. -/
theorem claim1_witness :
    ((CodeChangesChatAgent.runBody stReady baseEnv sampleInputs).outcome
        = Except.ok ()
      ∧ (CustomAgent.runBody custReady custEnv sampleInputs).outcome
        = Except.ok ())
    ∧ ((concatAll (eventFrags (CodeChangesChatAgent.run stReady baseEnv
            sampleInputs).1.trace)
        = (CodeChangesChatAgent.run stReady baseEnv sampleInputs).1.fullResponse
      ∧ concatAll (persisted (CodeChangesChatAgent.run stReady baseEnv
            sampleInputs).1.trace)
        = (CodeChangesChatAgent.run stReady baseEnv sampleInputs).1.fullResponse)
    ∧ (concatAll (eventFrags (CustomAgent.run custReady custEnv
            sampleInputs).1.trace)
        = (CustomAgent.run custReady custEnv sampleInputs).1.fullResponse
      ∧ concatAll (persisted (CustomAgent.run custReady custEnv
            sampleInputs).1.trace)
        = (CustomAgent.run custReady custEnv sampleInputs).1.fullResponse)) :=
  ⟨⟨rfl, rfl⟩,
    claim1_concat_invariant stReady baseEnv sampleInputs custReady custEnv
      sampleInputs rfl rfl⟩

/-- C3: whenever the body of a run raises (at chain build, history fetch,
classification, tool invocation, or mid-stream), the run does not
propagate the exception: its event sequence is the events of the body followed
by exactly one terminal textual error event, and the events of the body
contain no error event, so the terminal error is unique and last. -/
theorem claim3_error_boundary
    (st : AgentState) (env : Env) (inp : RunInputs) (e : String)
    (cst : CustomState) (cenv : CustomEnv) (cinp : RunInputs) (e2 : String)
    (h1 : (CodeChangesChatAgent.runBody st env inp).outcome = Except.error e)
    (h2 : (CustomAgent.runBody cst cenv cinp).outcome = Except.error e2) :
    (traceEvents (CodeChangesChatAgent.run st env inp).1.trace
        = traceEvents (CodeChangesChatAgent.runBody st env inp).trace
          ++ [Event.error ("An error occurred: " ++ e)]
      ∧ noErrorEvents (CodeChangesChatAgent.runBody st env inp).trace = true)
    ∧ (traceEvents (CustomAgent.run cst cenv cinp).1.trace
        = traceEvents (CustomAgent.runBody cst cenv cinp).trace
          ++ [Event.error ("An error occurred: " ++ e2)]
      ∧ noErrorEvents (CustomAgent.runBody cst cenv cinp).trace = true) := by
  refine ⟨⟨?_, body_noErrorEvents st env inp⟩,
    ⟨?_, custom_body_noErrorEvents cst cenv cinp⟩⟩
  · rw [run_eq_of_error st env inp e h1]
    simp only [traceEvents_append, traceEvents_single_emit]
  · rw [custom_run_eq_of_error cst cenv cinp e2 h2]
    simp only [traceEvents_append, traceEvents_single_emit]

/-- Witness for C3: the history fetch fails in both agents. -/
theorem claim3_witness :
    ((CodeChangesChatAgent.runBody stReady historyFailEnv sampleInputs).outcome
        = Except.error "db down"
      ∧ (CustomAgent.runBody custReady custHistoryFailEnv sampleInputs).outcome
        = Except.error "db down")
    ∧ ((traceEvents (CodeChangesChatAgent.run stReady historyFailEnv
            sampleInputs).1.trace
        = traceEvents (CodeChangesChatAgent.runBody stReady historyFailEnv
            sampleInputs).trace
          ++ [Event.error ("An error occurred: " ++ "db down")]
      ∧ noErrorEvents (CodeChangesChatAgent.runBody stReady historyFailEnv
            sampleInputs).trace = true)
    ∧ (traceEvents (CustomAgent.run custReady custHistoryFailEnv
            sampleInputs).1.trace
        = traceEvents (CustomAgent.runBody custReady custHistoryFailEnv
            sampleInputs).trace
          ++ [Event.error ("An error occurred: " ++ "db down")]
      ∧ noErrorEvents (CustomAgent.runBody custReady custHistoryFailEnv
            sampleInputs).trace = true)) :=
  ⟨⟨rfl, rfl⟩,
    claim3_error_boundary stReady historyFailEnv sampleInputs "db down"
      custReady custHistoryFailEnv sampleInputs "db down"
      rfl rfl⟩

/-- C9: within one run of either agent, the fragments of the emitted
events equal, in order, the texts of the chunks received from the model
stream; the persisted fragments equal the same sequence; and after every
prefix of the execution the fragments yielded so far are an initial
segment of the fragments persisted so far (each fragment is persisted
before its event is yielded). -/
theorem claim9_write_before_yield
    (st : AgentState) (env : Env) (inp : RunInputs)
    (cst : CustomState) (cenv : CustomEnv) (cinp : RunInputs) :
    (eventFrags (CodeChangesChatAgent.run st env inp).1.trace
        = (received (CodeChangesChatAgent.run st env inp).1.trace).map Chunk.text
      ∧ persisted (CodeChangesChatAgent.run st env inp).1.trace
        = (received (CodeChangesChatAgent.run st env inp).1.trace).map Chunk.text
      ∧ writeBeforeYield (CodeChangesChatAgent.run st env inp).1.trace)
    ∧ (eventFrags (CustomAgent.run cst cenv cinp).1.trace
        = (received (CustomAgent.run cst cenv cinp).1.trace).map Chunk.text
      ∧ persisted (CustomAgent.run cst cenv cinp).1.trace
        = (received (CustomAgent.run cst cenv cinp).1.trace).map Chunk.text
      ∧ writeBeforeYield (CustomAgent.run cst cenv cinp).1.trace) := by
  constructor
  · rcases hs : CodeChangesChatAgent.setupPhase st env with ⟨t0, r, st1⟩
    have hns : noStream t0 = true := by
      have h0 := setup_noStream st env
      rw [hs] at h0
      exact h0
    have hneut := noStream_neutral hns
    cases r with
    | error e =>
        rw [run_trace_setup_error st env inp t0 e st1 hs]
        refine ⟨?_, ?_, ?_⟩
        · simp only [eventFrags_append, received_append, eventFrags_errorEvent,
            received_errorEvent, noStream_frags hns, noStream_received hns,
            List.append_nil, List.map_nil]
        · simp only [persisted_append, received_append, persisted_errorEvent,
            received_errorEvent, noStream_persisted hns, noStream_received hns,
            List.append_nil, List.map_nil]
        · exact wBY_append_neutral_left hneut (wBY_cons_neutral rfl rfl wBY_nil)
    | ok s =>
        rcases hse : env.streamErr
            (⟨s.validatedHist, s.toolResults, inp.query⟩ : ChainInputs) with _ | e
        · obtain ⟨htr, _⟩ := run_trace_ok_noerr st env inp t0 s st1 hs hse
          rw [htr]
          refine ⟨?_, ?_, ?_⟩
          · simp only [eventFrags_append, received_append, eventFrags_flush,
              received_flush, noStream_frags hns, noStream_received hns,
              streamTrace_frags, streamTrace_received, List.append_nil,
              List.nil_append]
          · simp only [persisted_append, received_append, persisted_flush,
              received_flush, noStream_persisted hns, noStream_received hns,
              streamTrace_persisted, streamTrace_received, List.append_nil,
              List.nil_append]
          · exact wBY_append_neutral_right
              (wBY_append_neutral_left hneut (wBY_stream _ _ _ _))
              (neutral_singleton rfl rfl)
        · rw [run_trace_ok_err st env inp t0 s st1 e hs hse]
          refine ⟨?_, ?_, ?_⟩
          · simp only [eventFrags_append, received_append, eventFrags_errorEvent,
              received_errorEvent, noStream_frags hns, noStream_received hns,
              streamTrace_frags, streamTrace_received, List.append_nil,
              List.nil_append]
          · simp only [persisted_append, received_append, persisted_errorEvent,
              received_errorEvent, noStream_persisted hns, noStream_received hns,
              streamTrace_persisted, streamTrace_received, List.append_nil,
              List.nil_append]
          · exact wBY_append_neutral_right
              (wBY_append_neutral_left hneut (wBY_stream _ _ _ _))
              (neutral_singleton rfl rfl)
  · rcases hs : CustomAgent.setupPhase cst cenv with ⟨t0, r, st1⟩
    have hns : noStream t0 = true := by
      have h0 := custom_setup_noStream cst cenv
      rw [hs] at h0
      exact h0
    have hneut := noStream_neutral hns
    cases r with
    | error e =>
        rw [custom_run_trace_setup_error cst cenv cinp t0 e st1 hs]
        refine ⟨?_, ?_, ?_⟩
        · simp only [eventFrags_append, received_append, eventFrags_errorEvent,
            received_errorEvent, noStream_frags hns, noStream_received hns,
            List.append_nil, List.map_nil]
        · simp only [persisted_append, received_append, persisted_errorEvent,
            received_errorEvent, noStream_persisted hns, noStream_received hns,
            List.append_nil, List.map_nil]
        · exact wBY_append_neutral_left hneut (wBY_cons_neutral rfl rfl wBY_nil)
    | ok s =>
        rcases hse : cenv.streamErr
            (⟨s.validatedHist, s.toolResults, cinp.query⟩ : ChainInputs) with _ | e
        · obtain ⟨htr, _⟩ := custom_run_trace_ok_noerr cst cenv cinp t0 s st1 hs hse
          rw [htr]
          refine ⟨?_, ?_, ?_⟩
          · simp only [eventFrags_append, received_append, eventFrags_flush,
              received_flush, noStream_frags hns, noStream_received hns,
              streamTrace_frags, streamTrace_received, List.append_nil,
              List.nil_append]
          · simp only [persisted_append, received_append, persisted_flush,
              received_flush, noStream_persisted hns, noStream_received hns,
              streamTrace_persisted, streamTrace_received, List.append_nil,
              List.nil_append]
          · exact wBY_append_neutral_right
              (wBY_append_neutral_left hneut (wBY_stream _ _ _ _))
              (neutral_singleton rfl rfl)
        · rw [custom_run_trace_ok_err cst cenv cinp t0 s st1 e hs hse]
          refine ⟨?_, ?_, ?_⟩
          · simp only [eventFrags_append, received_append, eventFrags_errorEvent,
              received_errorEvent, noStream_frags hns, noStream_received hns,
              streamTrace_frags, streamTrace_received, List.append_nil,
              List.nil_append]
          · simp only [persisted_append, received_append, persisted_errorEvent,
              received_errorEvent, noStream_persisted hns, noStream_received hns,
              streamTrace_persisted, streamTrace_received, List.append_nil,
              List.nil_append]
          · exact wBY_append_neutral_right
              (wBY_append_neutral_left hneut (wBY_stream _ _ _ _))
              (neutral_singleton rfl rfl)

/-- C2: in `CodeChangesChatAgent`, when the classifier answers
`NO_AGENT_REQUIRED` every emitted chunk event of the run carries an empty
citation list, and when it answers `AGENT_REQUIRED` (with the tool call
returning a result) every emitted chunk event carries the same list: the
citations of the tool result passed through the formatting step. -/
theorem claim2_citation_gating (st : AgentState) (env : Env) (inp : RunInputs) :
    (env.classifyChain = Except.ok ClassificationResult.NO_AGENT_REQUIRED →
      allChunkCitations (CodeChangesChatAgent.run st env inp).1.trace [] = true)
    ∧ (∀ br : BlastRadiusResult,
        env.classifyChain = Except.ok ClassificationResult.AGENT_REQUIRED →
        env.blastRadius = Except.ok br →
        allChunkCitations (CodeChangesChatAgent.run st env inp).1.trace
          (env.formatCitations (brCitations br)) = true) := by
  rcases hs : CodeChangesChatAgent.setupPhase st env with ⟨t0, r, st1⟩
  have hns : noStream t0 = true := by
    have h0 := setup_noStream st env
    rw [hs] at h0
    exact h0
  cases r with
  | error e =>
      have htr := run_trace_setup_error st env inp t0 e st1 hs
      constructor
      · intro _
        rw [htr, allChunk_append, allChunk_noStream _ hns, allChunk_errorEvent]
        rfl
      · intro br _ _
        rw [htr, allChunk_append, allChunk_noStream _ hns, allChunk_errorEvent]
        rfl
  | ok s =>
      obtain ⟨hcls, himp⟩ := setup_ok_inv st env t0 s st1 hs
      have hprop : ∀ c : List String,
          (if s.classification = ClassificationResult.AGENT_REQUIRED
            then s.citations else []) = c →
          allChunkCitations (CodeChangesChatAgent.run st env inp).1.trace c
            = true := by
        intro c hc
        rcases hse : env.streamErr
            (⟨s.validatedHist, s.toolResults, inp.query⟩ : ChainInputs) with _ | e
        · obtain ⟨htr, _⟩ := run_trace_ok_noerr st env inp t0 s st1 hs hse
          rw [htr, hc, allChunk_append, allChunk_append,
            allChunk_noStream _ hns, allChunk_stream, allChunk_flush]
          rfl
        · rw [run_trace_ok_err st env inp t0 s st1 e hs hse, hc,
            allChunk_append, allChunk_append, allChunk_noStream _ hns,
            allChunk_stream, allChunk_errorEvent]
          rfl
      constructor
      · intro hno
        rw [hcls] at hno
        have hnc : s.classification = ClassificationResult.NO_AGENT_REQUIRED := by
          simpa using hno
        apply hprop
        rw [if_neg]
        rw [hnc]
        intro hcontra
        exact ClassificationResult.noConfusion hcontra
      · intro br hag hbr
        rw [hcls] at hag
        have hac : s.classification = ClassificationResult.AGENT_REQUIRED := by
          simpa using hag
        rcases himp hac with ⟨br0, hbr0, hcits⟩
        rw [hbr0] at hbr
        have hbre : br0 = br := by simpa using hbr
        subst hbre
        apply hprop
        rw [if_pos hac, hcits]

/-- Witness for C2: the classifier declines the tool in `baseEnv` and
requests it in `agentEnv`; the formatted citation list of the tool result
is attached to every chunk event in the second case. -/
theorem claim2_witness :
    allChunkCitations
        (CodeChangesChatAgent.run stReady baseEnv sampleInputs).1.trace []
        = true
    ∧ allChunkCitations
        (CodeChangesChatAgent.run stReady agentEnv sampleInputs).1.trace
        ["fileA.py:10"]
        = true :=
  ⟨(claim2_citation_gating stReady baseEnv sampleInputs).1 rfl,
    (claim2_citation_gating stReady agentEnv sampleInputs).2
      (⟨some ⟨["fileA.py:10"], "3 call sites affected"⟩, ""⟩ : BlastRadiusResult)
      rfl rfl⟩

/-- C10: a `CustomAgent` run that has its chain and history invokes the
auxiliary agent unconditionally — whatever the agent returns and whatever
the stream does — there is no classification step anywhere in the trace,
and every emitted chunk event carries an empty citation list. -/
theorem claim10_custom_unconditional (st : CustomState) (env : CustomEnv)
    (inp : RunInputs) (c : CustomChain) (hist : List HistEntry)
    (hchain : st.chain = some c)
    (hh : env.getSessionHistory = Except.ok hist) :
    Action.invokeCustomAgent ∈ (CustomAgent.run st env inp).1.trace
    ∧ ((CustomAgent.run st env inp).1.trace).all (fun a => !a.isClassify) = true
    ∧ allChunkCitations (CustomAgent.run st env inp).1.trace [] = true := by
  have hcp : CustomAgent.chainPhase st env = ([], Except.ok c, st) := by
    simp [CustomAgent.chainPhase, hchain]
  rcases hra : env.runAgent with e | dump
  · have hsetup : CustomAgent.setupPhase st env
        = ([Action.fetchHistory, Action.invokeCustomAgent], Except.error e, st) := by
      simp [CustomAgent.setupPhase, hcp, hh, hra]
    rw [custom_run_trace_setup_error st env inp _ e st hsetup]
    refine ⟨by simp, ?_, ?_⟩
    · simp [Action.isClassify]
    · rfl
  · have hsetup : CustomAgent.setupPhase st env
        = ([Action.fetchHistory, Action.invokeCustomAgent],
            Except.ok (⟨[⟨Role.system, "Custom Agent result: " ++ dump⟩],
              validatedHistory hist⟩ : CustomAgent.CustomSetupOk), st) := by
      simp [CustomAgent.setupPhase, hcp, hh, hra]
    have hpre : allChunkCitations
        [Action.fetchHistory, Action.invokeCustomAgent] ([] : List String)
        = true := rfl
    rcases hse : env.streamErr
        (⟨validatedHistory hist,
          [⟨Role.system, "Custom Agent result: " ++ dump⟩],
          inp.query⟩ : ChainInputs) with _ | e
    · obtain ⟨htr, _⟩ := custom_run_trace_ok_noerr st env inp _ _ st hsetup hse
      rw [htr]
      refine ⟨by simp, ?_, ?_⟩
      · rw [List.all_append, List.all_append, streamTrace_no_classify]
        rfl
      · rw [allChunk_append, allChunk_append, hpre, allChunk_stream,
          allChunk_flush]
        rfl
    · rw [custom_run_trace_ok_err st env inp _ _ st e hsetup hse]
      refine ⟨by simp, ?_, ?_⟩
      · rw [List.all_append, List.all_append, streamTrace_no_classify]
        rfl
      · rw [allChunk_append, allChunk_append, hpre, allChunk_stream,
          allChunk_errorEvent]
        rfl

/-- Witness for C10 with a prebuilt chain and empty history. -/
theorem claim10_witness :
    Action.invokeCustomAgent ∈ (CustomAgent.run custReady custEnv
        sampleInputs).1.trace
    ∧ ((CustomAgent.run custReady custEnv sampleInputs).1.trace).all
        (fun a => !a.isClassify) = true
    ∧ allChunkCitations (CustomAgent.run custReady custEnv
        sampleInputs).1.trace [] = true :=
  claim10_custom_unconditional custReady custEnv sampleInputs
    sampleCustomChain [] rfl rfl

/-- C4, counterexample: in `CodeChangesChatAgent`, a second call to the
model-client getter on a state whose `_llm` is already cached still
performs a rate-limiter acquisition (its action trace is exactly
`[acquireLimiter]`), while returning the cached handle — contradicting
the claim that subsequent calls return the cached handle without
re-acquiring the rate limiter. -/
theorem claim4_counterexample :
    (CodeChangesChatAgent.getLlm
        (CodeChangesChatAgent.init { id := 0 } { id := 9 }) baseEnv).2.1
      = Except.ok llmA
    ∧ (CodeChangesChatAgent.getLlm
        (CodeChangesChatAgent.getLlm
          (CodeChangesChatAgent.init { id := 0 } { id := 9 }) baseEnv).2.2
        baseEnv).2.1
      = Except.ok llmA
    ∧ (CodeChangesChatAgent.getLlm
        (CodeChangesChatAgent.getLlm
          (CodeChangesChatAgent.init { id := 0 } { id := 9 }) baseEnv).2.2
        baseEnv).1
      = [Action.acquireLimiter]
    ∧ Action.acquireLimiter ∈ (CodeChangesChatAgent.getLlm
        (CodeChangesChatAgent.getLlm
          (CodeChangesChatAgent.init { id := 0 } { id := 9 }) baseEnv).2.2
        baseEnv).1 := by
  refine ⟨rfl, rfl, rfl, ?_⟩
  decide

/-- C4, amended: provider instantiation happens only on the first getter
call — a call finding the cached handle returns it and performs no
instantiation — but in `CodeChangesChatAgent` rate-limiter acquisition is
performed on every call, including calls that return the cached handle;
the getter of `CustomAgent` involves no rate limiter and is pure memoization. -/
theorem claim4_amended (st st2 : AgentState) (env : Env) (l l2 : LLM)
    (cst : CustomState) (cenv : CustomEnv) (lc : LLM)
    (hacq : env.acquire 30 = AcquireOutcome.ok)
    (hcache : st.llmCached = some l)
    (hnone : st2.llmCached = none)
    (hinst : env.getSmallLlm = Except.ok l2)
    (hccache : cst.llmCached = some lc) :
    CodeChangesChatAgent.getLlm st env = ([Action.acquireLimiter], Except.ok l, st)
    ∧ CodeChangesChatAgent.getLlm st2 env
        = ([Action.acquireLimiter, Action.instantiateLlm], Except.ok l2,
            { st2 with llmCached := some l2 })
    ∧ CustomAgent.getLlm cst cenv = ([], Except.ok lc, cst) := by
  refine ⟨?_, ?_, ?_⟩
  · simp [CodeChangesChatAgent.getLlm, hacq, hcache]
  · simp [CodeChangesChatAgent.getLlm, hacq, hnone, hinst]
  · simp [CustomAgent.getLlm, hccache]

/-- C5: `__init__` never assigns the attribute `llm` (it assigns only
`mini_llm` and `_llm`), so on a freshly constructed agent every run that
reaches the classification step fails there with the attribute error, is
caught at the run boundary, and the produced sequence is exactly one
terminal error event with zero streamed chunks, zero incremental history
writes and no flush. -/
theorem claim5_missing_llm_attribute (m la : LLM) (env : Env) (inp : RunInputs)
    (ps : List PromptResponse) (sp hp : PromptResponse) (l : LLM)
    (hist : List HistEntry)
    (hps : env.getPrompts = Except.ok ps)
    (hsys : promptDictGet ps PromptType.SYSTEM = some sp)
    (hhum : promptDictGet ps PromptType.HUMAN = some hp)
    (hacq : env.acquire 30 = AcquireOutcome.ok)
    (hllm : env.getSmallLlm = Except.ok l)
    (hh : env.getSessionHistory = Except.ok hist) :
    (CodeChangesChatAgent.init m la).llm = none
    ∧ traceEvents
        (CodeChangesChatAgent.run (CodeChangesChatAgent.init m la) env inp).1.trace
        = [Event.error ("An error occurred: " ++ llmAttributeError)]
    ∧ received
        (CodeChangesChatAgent.run (CodeChangesChatAgent.init m la) env inp).1.trace
        = []
    ∧ historyWrites
        (CodeChangesChatAgent.run (CodeChangesChatAgent.init m la) env inp).1.trace
        = [] := by
  have hsetup : CodeChangesChatAgent.setupPhase (CodeChangesChatAgent.init m la) env
      = ([Action.fetchPrompts, Action.acquireLimiter, Action.instantiateLlm,
          Action.fetchHistory],
         Except.error llmAttributeError,
         { mini_llm := m, llmCached := some l, llm := none,
           chain := some (⟨sp.text, hp.text, l⟩ : Chain) }) := by
    simp [CodeChangesChatAgent.setupPhase, CodeChangesChatAgent.chainPhase,
      CodeChangesChatAgent.createChain, CodeChangesChatAgent.getLlm,
      CodeChangesChatAgent.classifyQuery, CodeChangesChatAgent.init,
      hps, hsys, hhum, hacq, hllm, hh]
  have hb := runBody_setup_error _ env inp _ _ _ hsetup
  have hout : (CodeChangesChatAgent.runBody (CodeChangesChatAgent.init m la)
      env inp).outcome = Except.error llmAttributeError := by rw [hb]
  have hrun := run_eq_of_error _ env inp _ hout
  rw [hrun, hb]
  exact ⟨rfl, rfl, rfl, rfl⟩

/-- Witness for C5 in a fully cooperative environment. -/
theorem claim5_witness :
    (CodeChangesChatAgent.init { id := 0 } { id := 9 }).llm = none
    ∧ traceEvents
        (CodeChangesChatAgent.run (CodeChangesChatAgent.init { id := 0 } { id := 9 })
          baseEnv sampleInputs).1.trace
        = [Event.error ("An error occurred: " ++ llmAttributeError)]
    ∧ received
        (CodeChangesChatAgent.run (CodeChangesChatAgent.init { id := 0 } { id := 9 })
          baseEnv sampleInputs).1.trace
        = []
    ∧ historyWrites
        (CodeChangesChatAgent.run (CodeChangesChatAgent.init { id := 0 } { id := 9 })
          baseEnv sampleInputs).1.trace
        = [] :=
  claim5_missing_llm_attribute { id := 0 } { id := 9 } baseEnv sampleInputs
    _ _ _ llmA [] rfl rfl rfl rfl rfl rfl

/-- C6: when the Prompt Service yields no SYSTEM or no HUMAN prompt,
chain building fails with the prompt-not-found error, the run yields
exactly one terminal error event, and no history write (incremental
append or flush) and no chunk receipt happens in that run. -/
theorem claim6_prompt_not_found (st : AgentState) (env : Env) (inp : RunInputs)
    (ps : List PromptResponse)
    (hchain : st.chain = none)
    (hps : env.getPrompts = Except.ok ps)
    (hmiss : promptDictGet ps PromptType.SYSTEM = none
      ∨ promptDictGet ps PromptType.HUMAN = none) :
    traceEvents (CodeChangesChatAgent.run st env inp).1.trace
        = [Event.error ("An error occurred: " ++ promptNotFoundMsg)]
    ∧ historyWrites (CodeChangesChatAgent.run st env inp).1.trace = []
    ∧ received (CodeChangesChatAgent.run st env inp).1.trace = [] := by
  have hsetup : CodeChangesChatAgent.setupPhase st env
      = ([Action.fetchPrompts], Except.error promptNotFoundMsg, st) := by
    rcases hmiss with hm | hm
    · rcases hh2 : promptDictGet ps PromptType.HUMAN with _ | hp2 <;>
        simp [CodeChangesChatAgent.setupPhase, CodeChangesChatAgent.chainPhase,
          CodeChangesChatAgent.createChain, hchain, hps, hm, hh2]
    · rcases hs2 : promptDictGet ps PromptType.SYSTEM with _ | sp2 <;>
        simp [CodeChangesChatAgent.setupPhase, CodeChangesChatAgent.chainPhase,
          CodeChangesChatAgent.createChain, hchain, hps, hm, hs2]
  have hb := runBody_setup_error _ env inp _ _ _ hsetup
  have hout : (CodeChangesChatAgent.runBody st env inp).outcome
      = Except.error promptNotFoundMsg := by rw [hb]
  have hrun := run_eq_of_error _ env inp _ hout
  rw [hrun, hb]
  exact ⟨rfl, rfl, rfl⟩

/-- Witness for C6: the Prompt Service returns only a SYSTEM prompt. -/
theorem claim6_witness :
    traceEvents (CodeChangesChatAgent.run
        (CodeChangesChatAgent.init { id := 0 } { id := 9 })
        noHumanPromptEnv sampleInputs).1.trace
        = [Event.error ("An error occurred: " ++ promptNotFoundMsg)]
    ∧ historyWrites (CodeChangesChatAgent.run
        (CodeChangesChatAgent.init { id := 0 } { id := 9 })
        noHumanPromptEnv sampleInputs).1.trace = []
    ∧ received (CodeChangesChatAgent.run
        (CodeChangesChatAgent.init { id := 0 } { id := 9 })
        noHumanPromptEnv sampleInputs).1.trace = [] :=
  claim6_prompt_not_found (CodeChangesChatAgent.init { id := 0 } { id := 9 })
    noHumanPromptEnv sampleInputs _ rfl rfl (Or.inr rfl)

/-- C7: the limiter acquisition of the model-client getter is bounded by
the explicit timeout 30; if it times out while the chain is being built,
the run yields exactly one terminal error event whose text contains the
overload indication, no provider instantiation is attempted, and no
history write happens in that run. -/
theorem claim7_rate_limit_timeout (st : AgentState) (env : Env) (inp : RunInputs)
    (ps : List PromptResponse) (sp hp : PromptResponse)
    (hchain : st.chain = none)
    (hps : env.getPrompts = Except.ok ps)
    (hsys : promptDictGet ps PromptType.SYSTEM = some sp)
    (hhum : promptDictGet ps PromptType.HUMAN = some hp)
    (hacq : env.acquire 30 = AcquireOutcome.timeout) :
    traceEvents (CodeChangesChatAgent.run st env inp).1.trace
        = [Event.error ("An error occurred: " ++ overloadedMsg)]
    ∧ strHas ("An error occurred: " ++ overloadedMsg) "overloaded" = true
    ∧ Action.instantiateLlm ∉ (CodeChangesChatAgent.run st env inp).1.trace
    ∧ historyWrites (CodeChangesChatAgent.run st env inp).1.trace = [] := by
  have hsetup : CodeChangesChatAgent.setupPhase st env
      = ([Action.fetchPrompts, Action.acquireLimiter],
         Except.error overloadedMsg, st) := by
    simp [CodeChangesChatAgent.setupPhase, CodeChangesChatAgent.chainPhase,
      CodeChangesChatAgent.createChain, CodeChangesChatAgent.getLlm,
      hchain, hps, hsys, hhum, hacq]
  have hb := runBody_setup_error _ env inp _ _ _ hsetup
  have hout : (CodeChangesChatAgent.runBody st env inp).outcome
      = Except.error overloadedMsg := by rw [hb]
  have hrun := run_eq_of_error _ env inp _ hout
  rw [hrun, hb]
  refine ⟨rfl, by decide, ?_, rfl⟩
  simp

/-- Witness for C7: the limiter times out in an otherwise cooperative
environment. -/
theorem claim7_witness :
    traceEvents (CodeChangesChatAgent.run
        (CodeChangesChatAgent.init { id := 0 } { id := 9 })
        timeoutEnv sampleInputs).1.trace
        = [Event.error ("An error occurred: " ++ overloadedMsg)]
    ∧ strHas ("An error occurred: " ++ overloadedMsg) "overloaded" = true
    ∧ Action.instantiateLlm ∉ (CodeChangesChatAgent.run
        (CodeChangesChatAgent.init { id := 0 } { id := 9 })
        timeoutEnv sampleInputs).1.trace
    ∧ historyWrites (CodeChangesChatAgent.run
        (CodeChangesChatAgent.init { id := 0 } { id := 9 })
        timeoutEnv sampleInputs).1.trace = [] :=
  claim7_rate_limit_timeout (CodeChangesChatAgent.init { id := 0 } { id := 9 })
    timeoutEnv sampleInputs _ _ _ rfl rfl rfl rfl rfl

/-- Witness for the amended C4 theorem at concrete states and environment. -/
theorem claim4_witness :
    CodeChangesChatAgent.getLlm stReady baseEnv
        = ([Action.acquireLimiter], Except.ok llmA, stReady)
    ∧ CodeChangesChatAgent.getLlm
        (CodeChangesChatAgent.init { id := 0 } { id := 9 }) baseEnv
        = ([Action.acquireLimiter, Action.instantiateLlm], Except.ok llmA,
            { CodeChangesChatAgent.init { id := 0 } { id := 9 } with
                llmCached := some llmA })
    ∧ CustomAgent.getLlm custReady custEnv = ([], Except.ok llmA, custReady) :=
  claim4_amended stReady (CodeChangesChatAgent.init { id := 0 } { id := 9 })
    baseEnv llmA llmA custReady custEnv llmA rfl rfl rfl rfl rfl

end Potpie
